import Mathlib

/-!
Verification development for the `freesurfer_analyses` pipeline orchestrator.

The Python sources are shallowly embedded as executable Lean definitions:

* Filesystem paths are strings joined with `"/"` (the repository only ever
  appends fixed components with `pathlib`'s `/` operator).
* The mutable world visible to the claims is a `PState`: the set of existing
  paths, the `SUBJECTS_DIR` environment variable, and the trace of commands
  spawned via `subprocess.Popen`.
* Fallible Python code is embedded as `Except PyError`; functions with side
  effects return `Except PyError α × PState` so that side effects performed
  before an exception are still observable, exactly as in Python.
* The external-tool contract of the specification (an invocation writes
  exactly one artifact at the stage's canonical output path and exits zero)
  is modelled inside `executeStage`, which both records the spawned command
  and adds the artifact to the filesystem.
-/

set_option maxRecDepth 100000

namespace FreesurferAnalyses

/-- Python exceptions that the embedded code can raise. -/
inductive PyError where
  | valueError (msg : String)
  | unboundLocal
  | attributeError
  | fileNotFound
  | traitError
  deriving DecidableEq, Repr

instance {ε α : Type} [DecidableEq ε] [DecidableEq α] : DecidableEq (Except ε α) :=
  fun x y =>
    match x, y with
    | .ok a, .ok b =>
      if h : a = b then .isTrue (congrArg Except.ok h)
      else .isFalse (fun hc => h (Except.ok.inj hc))
    | .error a, .error b =>
      if h : a = b then .isTrue (congrArg Except.error h)
      else .isFalse (fun hc => h (Except.error.inj hc))
    | .ok _, .error _ => .isFalse (fun hc => Except.noConfusion hc)
    | .error _, .ok _ => .isFalse (fun hc => Except.noConfusion hc)

/-- Python's `str.lower()` on the ASCII region labels used by the sources,
implemented structurally over the character list so that proofs can evaluate
it (core's `String.toLower` is defined by a recursion the kernel cannot
unfold). -/
def pyLower (s : String) : String :=
  ⟨s.data.map (fun c => if 65 ≤ c.toNat ∧ c.toNat ≤ 90 then Char.ofNat (c.toNat + 32) else c)⟩

/-- The pipeline stage a spawned command belongs to, identified by the
template the command string was rendered from (region labeling from
`registrations.py`, statistics extraction and table export from
`parcellations.py`). -/
inductive Stage where
  | labeling
  | statistics
  | tableExport
  deriving DecidableEq, Repr

/-- One `subprocess.Popen` invocation: the stage whose template produced the
command, and the rendered command string. -/
structure Spawned where
  stage : Stage
  text : String
  deriving DecidableEq, Repr

/-- The mutable world: existing filesystem paths, the `SUBJECTS_DIR`
environment variable, and the trace of spawned commands. -/
structure PState where
  fs : List String
  subjectsDir : Option String
  trace : List Spawned
  deriving DecidableEq, Repr

/-- Models `subprocess.Popen(cmd, shell=True)` together with the external-tool
contract of the specification: the invoked tool writes exactly one artifact at
the stage's canonical output path. The command is appended to the trace and
the artifact is added to the filesystem. -/
def executeStage (s : PState) (stage : Stage) (text : String) (artifact : String) : PState :=
  { fs := artifact :: s.fs, subjectsDir := s.subjectsDir, trace := s.trace ++ [⟨stage, text⟩] }

/-- Embeds `FreesurferManager.set_subjects_dir` (assignment to
`os.environ["SUBJECTS_DIR"]`). -/
def set_subjects_dir (s : PState) (subjects_dir : String) : PState :=
  { s with subjectsDir := some subjects_dir }

/-- Splits a `"/"`-joined path string into its components, implemented by
structural recursion over the character list so that proofs can evaluate it
(core's `String.splitOn` is defined by a recursion the kernel cannot
unfold). -/
def pathComponents (p : String) : List String :=
  (p.data.foldr
    (fun c acc =>
      if c = '/' then [] :: acc
      else
        match acc with
        | [] => [[c]]
        | h :: t => (c :: h) :: t)
    [[]]).map (fun cs => ⟨cs⟩)

/-- `pathlib.Path.parent` on a `"/"`-joined path string. -/
def pathParent (p : String) : String :=
  String.intercalate "/" ((pathComponents p).dropLast)

/-- `pathlib.Path.name` on a `"/"`-joined path string. -/
def pathName (p : String) : String :=
  (pathComponents p).getLastD ""

/-- Python `dict.get` on a string-keyed dictionary. -/
def dictGet (d : List (String × String)) (key : String) : Option String :=
  (d.find? (fun p => p.1 == key)).map (·.2)

/-- The `brain_parts` parcellation registry: scheme name to the dictionary of
per-scheme resources (`ctab`, `gcs`, `gcs_subcortex`, ...). -/
abbrev Parcs := List (String × List (String × String))

/-- `self.parcellation_manager.parcellations.get(scheme)`. -/
def parcsGet (parcs : Parcs) (scheme : String) : Option (List (String × String)) :=
  (parcs.find? (fun p => p.1 == scheme)).map (·.2)

/-- `FreesurferManager.HEMISPHERES_LABELS` (also re-declared identically on
`NativeRegistration`). -/
def HEMISPHERES_LABELS : List String := ["lh", "rh"]

/-- `FreesurferManager.SUBCORTICAL_LABELS` (also re-declared identically on
`NativeRegistration`). -/
def SUBCORTICAL_LABELS : List String := ["subcortex"]

/-- Embeds `FreesurferManager.validate_parcellation` (also duplicated on
`NativeParcellation`): `parcellations.get(scheme).get(key)`, raising
`AttributeError` when the scheme is absent (`None.get`) and `ValueError` when
the key resolves to a falsy value. -/
def validate_parcellation (parcs : Parcs) (parcellation_scheme key : String) :
    Except PyError String :=
  match parcsGet parcs parcellation_scheme with
  | none => .error .attributeError
  | some d =>
    match dictGet d key with
    | none =>
      .error (.valueError ("No available " ++ key ++ " was found for "
        ++ parcellation_scheme ++ "."))
    | some v =>
      if v = "" then
        .error (.valueError ("No available " ++ key ++ " was found for "
          ++ parcellation_scheme ++ "."))
      else .ok v

/-- The `{"path": ..., "exists": ...}` dictionary returned by every
`build_*_output_dictionary` method. -/
structure OutputDict where
  path : String
  existsOnDisk : Bool
  deriving DecidableEq, Repr

/-- Path component of a fallible output-dictionary computation. -/
def pathOf (r : Except PyError OutputDict) : Except PyError String :=
  r.map OutputDict.path

end FreesurferAnalyses

namespace FreesurferAnalyses.NativeParcellation

open FreesurferAnalyses

/-- `NativeParcellation.DEFAULT_CORTICAL_STATS_DESTINATION`. -/
def DEFAULT_CORTICAL_STATS_DESTINATION : String := "stats"

/-- `NativeParcellation.DEFAULT_CORTICAL_STATS_PATTERN`, with the `str.format`
substitution applied. -/
def DEFAULT_CORTICAL_STATS_PATTERN (hemi parcellation_scheme : String) : String :=
  hemi ++ "." ++ parcellation_scheme ++ ".stats"

/-- `NativeParcellation.DEFAULT_SUBCORTICAL_STATS_DESTINATION`. -/
def DEFAULT_SUBCORTICAL_STATS_DESTINATION : String := "stats"

/-- `NativeParcellation.DEFAULT_SUBCORTICAL_STATS_PATTERN`, with the
`str.format` substitution applied. -/
def DEFAULT_SUBCORTICAL_STATS_PATTERN (parcellation_scheme : String) : String :=
  parcellation_scheme ++ "_subcortex.stats"

/-- `NativeParcellation.DEFAULT_CORTICAL_TABLES_DESTINATION`. -/
def DEFAULT_CORTICAL_TABLES_DESTINATION : String := "stats"

/-- `NativeParcellation.DEFAULT_CORTICAL_TABLES_PATTERN`, with the
`str.format` substitution applied. -/
def DEFAULT_CORTICAL_TABLES_PATTERN (hemi measure parcellation_scheme : String) : String :=
  hemi ++ "_" ++ measure ++ "." ++ parcellation_scheme ++ ".csv"

/-- `NativeParcellation.DEFAULT_SUBCORTICAL_TABLES_DESTINATION`. -/
def DEFAULT_SUBCORTICAL_TABLES_DESTINATION : String := "stats"

/-- `NativeParcellation.DEFAULT_SUBCORTICAL_TABLES_PATTERN`, with the
`str.format` substitution applied. -/
def DEFAULT_SUBCORTICAL_TABLES_PATTERN (parcellation_scheme measure : String) : String :=
  parcellation_scheme ++ "_subcortex_" ++ measure ++ ".csv"

/-- `NativeParcellation.CORTICAL_MEASURES`. -/
def CORTICAL_MEASURES : List String :=
  ["area", "volume", "thickness", "thicknessstd", "thickness.T1",
   "meancurv", "gauscurv", "foldind", "curvind"]

/-- `NativeParcellation.SUBCORTICAL_MEASURES`. -/
def SUBCORTICAL_MEASURES : List String := ["volume", "std", "mean"]

/-- Embeds `NativeParcellation.build_stats_output_dictionary`. When `hemi` is
neither a hemispheric label nor (case-insensitively) `"subcortex"`, neither
branch assigns `output_file` and the final dictionary construction raises
`UnboundLocalError`. -/
def build_stats_output_dictionary (source_file parcellation_scheme hemi : String)
    (fs : List String) : Except PyError OutputDict :=
  if hemi ∈ HEMISPHERES_LABELS then
    let output_file := source_file ++ "/" ++ DEFAULT_CORTICAL_STATS_DESTINATION
      ++ "/" ++ DEFAULT_CORTICAL_STATS_PATTERN hemi parcellation_scheme
    .ok ⟨output_file, fs.contains output_file⟩
  else if pyLower hemi = "subcortex" then
    let output_file := source_file ++ "/" ++ DEFAULT_SUBCORTICAL_STATS_DESTINATION
      ++ "/" ++ DEFAULT_SUBCORTICAL_STATS_PATTERN parcellation_scheme
    .ok ⟨output_file, fs.contains output_file⟩
  else .error .unboundLocal

/-- Embeds `NativeParcellation.validate_measure`. -/
def validate_measure (hemi measure : String) : Except PyError Unit :=
  if hemi ∈ HEMISPHERES_LABELS ∧ measure ∉ CORTICAL_MEASURES then
    .error (.valueError ("Cannot run cortical statistics on " ++ measure))
  else if hemi ∈ SUBCORTICAL_LABELS ∧ measure ∉ SUBCORTICAL_MEASURES then
    .error (.valueError ("Cannot run subcortical statistics on " ++ measure))
  else .ok ()

/-- Embeds `NativeParcellation.build_table_output_dictionary`, which calls
`validate_measure` before building the path; the unbound-local fall-through
mirrors `build_stats_output_dictionary`. -/
def build_table_output_dictionary (source_file parcellation_scheme hemi measure : String)
    (fs : List String) : Except PyError OutputDict :=
  match validate_measure hemi measure with
  | .error e => .error e
  | .ok _ =>
    if hemi ∈ HEMISPHERES_LABELS then
      let output_file := source_file ++ "/" ++ DEFAULT_CORTICAL_TABLES_DESTINATION
        ++ "/" ++ DEFAULT_CORTICAL_TABLES_PATTERN hemi measure parcellation_scheme
      .ok ⟨output_file, fs.contains output_file⟩
    else if pyLower hemi = "subcortex" then
      let output_file := source_file ++ "/" ++ DEFAULT_SUBCORTICAL_TABLES_DESTINATION
        ++ "/" ++ DEFAULT_SUBCORTICAL_TABLES_PATTERN parcellation_scheme measure
      .ok ⟨output_file, fs.contains output_file⟩
    else .error .unboundLocal

end FreesurferAnalyses.NativeParcellation

namespace FreesurferAnalyses.NativeParcellation

open FreesurferAnalyses

/-- `parcellations/utils.py`'s `PARCELLATION_CORTICAL_STATISTICS_CMD`, with
the `str.format` substitution and the `.replace("\n", " ")` applied. -/
def PARCELLATION_CORTICAL_STATISTICS_CMD
    (input_dir subject_id hemi parcellation_scheme lut : String) : String :=
  "mris_anatomical_stats -mgz -cortex " ++ input_dir ++ "/" ++ subject_id
    ++ "/label/lh.cortex.label -f " ++ input_dir ++ "/" ++ subject_id
    ++ "/stats/" ++ hemi ++ "." ++ parcellation_scheme ++ ".stats -b -a "
    ++ input_dir ++ "/" ++ subject_id ++ "/label/" ++ hemi ++ "."
    ++ parcellation_scheme ++ ".annot -c " ++ lut ++ " " ++ subject_id
    ++ " " ++ hemi ++ " white"

/-- `parcellations/utils.py`'s `PARCELLATION_SUBCORTICAL_STATISTICS_CMD`, with
the `str.format` substitution and the `.replace("\n", " ")` applied. -/
def PARCELLATION_SUBCORTICAL_STATISTICS_CMD
    (input_dir subject_id parcellation_scheme gca : String) : String :=
  "mri_segstats --seg " ++ input_dir ++ "/" ++ subject_id ++ "/mri/"
    ++ parcellation_scheme ++ "_subcortex.mgz --ctab-gca " ++ gca
    ++ " --excludeid 0 --sum " ++ input_dir ++ "/" ++ subject_id ++ "/stats/"
    ++ parcellation_scheme ++ "_subcortex.stats"

/-- `parcellations/utils.py`'s `CORTICAL_STATS_TO_TABLE_CMD`, with the
`str.format` substitution and the `.replace("\n", " ")` applied. -/
def CORTICAL_STATS_TO_TABLE_CMD
    (input_dir subject_id hemi parcellation_scheme measure : String) : String :=
  "aparcstats2table --subjects " ++ subject_id ++ " --hemi " ++ hemi
    ++ " --parc " ++ parcellation_scheme ++ " --meas " ++ measure
    ++ " --tablefile " ++ input_dir ++ "/" ++ subject_id ++ "/stats/"
    ++ hemi ++ "_" ++ measure ++ "." ++ parcellation_scheme ++ ".csv"

/-- `parcellations/utils.py`'s `SUBCORTICAL_STATS_TO_TABLE_CMD`, with the
`str.format` substitution and the `.replace("\n", " ")` applied. -/
def SUBCORTICAL_STATS_TO_TABLE_CMD
    (subcortex_stats input_dir subject_id parcellation_scheme measure : String) : String :=
  "asegstats2table --inputs " ++ subcortex_stats ++ " --meas " ++ measure
    ++ " --tablefile " ++ input_dir ++ "/" ++ subject_id ++ "/stats/"
    ++ parcellation_scheme ++ "_subcortex_" ++ measure ++ ".csv --all-segs"

/-- Embeds `NativeParcellation.configure_cortex_parcellation_command`:
validates the scheme's `ctab` entry, then renders the cortical statistics
command. -/
def configure_cortex_parcellation_command (parcs : Parcs)
    (source_file parcellation_scheme hemi : String) : Except PyError String :=
  match validate_parcellation parcs parcellation_scheme "ctab" with
  | .error e => .error e
  | .ok parcellation_lut =>
    .ok (PARCELLATION_CORTICAL_STATISTICS_CMD (pathParent source_file)
      (pathName source_file) hemi parcellation_scheme parcellation_lut)

/-- Embeds `NativeParcellation.configure_subcortex_parcellation_command`:
validates the scheme's `gcs_subcortex` entry, then renders the subcortical
statistics command. -/
def configure_subcortex_parcellation_command (parcs : Parcs)
    (source_file parcellation_scheme : String) : Except PyError String :=
  match validate_parcellation parcs parcellation_scheme "gcs_subcortex" with
  | .error e => .error e
  | .ok parcellation_lut =>
    .ok (PARCELLATION_SUBCORTICAL_STATISTICS_CMD (pathParent source_file)
      (pathName source_file) parcellation_scheme parcellation_lut)

/-- Embeds `NativeParcellation.configure_cortex_transformation_command`
(pure rendering, no validation). -/
def configure_cortex_transformation_command
    (source_file parcellation_scheme measure hemi : String) : String :=
  CORTICAL_STATS_TO_TABLE_CMD (pathParent source_file) (pathName source_file)
    hemi parcellation_scheme measure

/-- Embeds `NativeParcellation.configure_subcortical_transformation_command`
(pure rendering, no validation). -/
def configure_subcortical_transformation_command
    (source_file parcellation_scheme measure stats_file : String) : String :=
  SUBCORTICAL_STATS_TO_TABLE_CMD stats_file (pathParent source_file)
    (pathName source_file) parcellation_scheme measure

/-- Embeds `NativeParcellation.parcellate_single_hemisphere` (the
statistics-extraction stage): build the stats output dictionary, and when the
output is missing or `force` is set, configure and spawn the statistics
command. The final `else` models the `UnboundLocalError` on `cmd` for an
unrecognized `hemi` (unreachable, since `build_stats_output_dictionary`
already raised for such a `hemi`). -/
def parcellate_single_hemisphere (parcs : Parcs)
    (source_file parcellation_scheme hemi : String) (force : Bool) (s : PState) :
    Except PyError OutputDict × PState :=
  match build_stats_output_dictionary source_file parcellation_scheme hemi s.fs with
  | .error e => (.error e, s)
  | .ok outputs =>
    if !outputs.existsOnDisk || force then
      let s1 := set_subjects_dir s (pathParent source_file)
      if hemi ∈ HEMISPHERES_LABELS then
        match configure_cortex_parcellation_command parcs source_file parcellation_scheme hemi with
        | .error e => (.error e, s1)
        | .ok cmd => (.ok outputs, executeStage s1 .statistics cmd outputs.path)
      else if pyLower hemi = "subcortex" then
        match configure_subcortex_parcellation_command parcs source_file parcellation_scheme with
        | .error e => (.error e, s1)
        | .ok cmd => (.ok outputs, executeStage s1 .statistics cmd outputs.path)
      else (.error .unboundLocal, s1)
    else (.ok outputs, s)

/-- Embeds `NativeParcellation.run_single_hemisphere` (the table-export
stage): first run the statistics stage via `parcellate_single_hemisphere`,
then build the table output dictionary (which validates the measure), and
when the table is missing or `force` is set, configure and spawn the
stats-to-table command. -/
def run_single_hemisphere (parcs : Parcs)
    (source_file parcellation_scheme hemi measure : String) (force : Bool) (s : PState) :
    Except PyError OutputDict × PState :=
  match parcellate_single_hemisphere parcs source_file parcellation_scheme hemi force s with
  | (.error e, s1) => (.error e, s1)
  | (.ok parcellation_outputs, s1) =>
    match build_table_output_dictionary source_file parcellation_scheme hemi measure s1.fs with
    | .error e => (.error e, s1)
    | .ok outputs =>
      if !outputs.existsOnDisk || force then
        let s2 := set_subjects_dir s1 (pathParent source_file)
        if hemi ∈ HEMISPHERES_LABELS then
          let cmd := configure_cortex_transformation_command
            source_file parcellation_scheme measure hemi
          (.ok outputs, executeStage s2 .tableExport cmd outputs.path)
        else if pyLower hemi = "subcortex" then
          let cmd := configure_subcortical_transformation_command
            source_file parcellation_scheme measure parcellation_outputs.path
          (.ok outputs, executeStage s2 .tableExport cmd outputs.path)
        else (.error .unboundLocal, s2)
      else (.ok outputs, s1)

end FreesurferAnalyses.NativeParcellation

namespace FreesurferAnalyses.NativeRegistration

open FreesurferAnalyses

/-- `NativeRegistration.DEFAULT_CORTICAL_OUTPUT_DESTINATION`. -/
def DEFAULT_CORTICAL_OUTPUT_DESTINATION : String := "label"

/-- `NativeRegistration.DEFAULT_CORTICAL_OUTPUT_PATTERN`, with the
`str.format` substitution applied. -/
def DEFAULT_CORTICAL_OUTPUT_PATTERN (hemi parcellation_scheme : String) : String :=
  hemi ++ "." ++ parcellation_scheme ++ ".annot"

/-- `NativeRegistration.DEFAULT_SUBCORTICAL_OUTPUT_DESTINATION`. -/
def DEFAULT_SUBCORTICAL_OUTPUT_DESTINATION : String := "mri"

/-- `NativeRegistration.DEFAULT_SUBCORTICAL_OUTPUT_PATTERN`, with the
`str.format` substitution applied. -/
def DEFAULT_SUBCORTICAL_OUTPUT_PATTERN (parcellation_scheme : String) : String :=
  parcellation_scheme ++ "_subcortex.mgz"

/-- Embeds `NativeRegistration.build_output_dictionary`; the missing final
branch is the same `UnboundLocalError` fall-through as in the parcellation
builders. -/
def build_output_dictionary (source_file parcellation_scheme hemi : String)
    (fs : List String) : Except PyError OutputDict :=
  if hemi ∈ HEMISPHERES_LABELS then
    let output_file := source_file ++ "/" ++ DEFAULT_CORTICAL_OUTPUT_DESTINATION
      ++ "/" ++ DEFAULT_CORTICAL_OUTPUT_PATTERN hemi parcellation_scheme
    .ok ⟨output_file, fs.contains output_file⟩
  else if pyLower hemi = "subcortex" then
    let output_file := source_file ++ "/" ++ DEFAULT_SUBCORTICAL_OUTPUT_DESTINATION
      ++ "/" ++ DEFAULT_SUBCORTICAL_OUTPUT_PATTERN parcellation_scheme
    .ok ⟨output_file, fs.contains output_file⟩
  else .error .unboundLocal

/-- Modelled from the spec: `CORTEX_MAPPING_CMD` is imported by
`registrations/registrations.py` from `freesurfer_analyses.registrations.utils`
but is absent from that file in the repository sources. Per the
specification, the hemispheric region-labeling template consumes the input
directory, subject identifier, region label, scheme identifier and an atlas
(gcs) file path. -/
def CORTEX_MAPPING_CMD
    (input_dir subject_id hemi parcellation_gcs parcellation_scheme : String) : String :=
  "mris_ca_label -sdir " ++ input_dir ++ " " ++ subject_id ++ " " ++ hemi
    ++ " sphere.reg " ++ parcellation_gcs ++ " " ++ input_dir ++ "/"
    ++ subject_id ++ "/label/" ++ hemi ++ "." ++ parcellation_scheme ++ ".annot"

/-- Modelled from the spec: `SUBCORTEX_MAPPING_CMD` is imported by
`registrations/registrations.py` from `freesurfer_analyses.registrations.utils`
but is absent from that file in the repository sources. Per the
specification, the subcortical region-labeling template consumes the input
directory, subject identifier, scheme identifier and an atlas (gca) file
path. -/
def SUBCORTEX_MAPPING_CMD
    (input_dir subject_id parcellation_gca parcellation_scheme : String) : String :=
  "mri_ca_label -sdir " ++ input_dir ++ " " ++ subject_id ++ " "
    ++ parcellation_gca ++ " " ++ input_dir ++ "/" ++ subject_id ++ "/mri/"
    ++ parcellation_scheme ++ "_subcortex.mgz"

/-- Embeds `NativeRegistration.configure_cortex_mapping_command`: looks up the
scheme's `gcs` entry (raising `AttributeError` for a missing scheme and
`ValueError` for a falsy entry), applies the `.format(hemi=hemi)`
substitution to it, and renders the labeling command. -/
def configure_cortex_mapping_command (parcs : Parcs)
    (source_file parcellation_scheme hemi : String) : Except PyError String :=
  match parcsGet parcs parcellation_scheme with
  | none => .error .attributeError
  | some d =>
    match dictGet d "gcs" with
    | none =>
      .error (.valueError ("No " ++ parcellation_scheme
        ++ " parcellation scheme found for " ++ hemi ++ " hemisphere."))
    | some hemi_parcellation =>
      if hemi_parcellation = "" then
        .error (.valueError ("No " ++ parcellation_scheme
          ++ " parcellation scheme found for " ++ hemi ++ " hemisphere."))
      else
        .ok (CORTEX_MAPPING_CMD (pathParent source_file) (pathName source_file)
          hemi (hemi_parcellation.replace "\x7bhemi\x7d" hemi) parcellation_scheme)

/-- Embeds `NativeRegistration.configure_subcortex_mapping_command`. -/
def configure_subcortex_mapping_command (parcs : Parcs)
    (source_file parcellation_scheme : String) : Except PyError String :=
  match parcsGet parcs parcellation_scheme with
  | none => .error .attributeError
  | some d =>
    match dictGet d "gcs_subcortex" with
    | none =>
      .error (.valueError ("No " ++ parcellation_scheme
        ++ " parcellation scheme found for the sub-cortex."))
    | some subcortical_parcellation =>
      if subcortical_parcellation = "" then
        .error (.valueError ("No " ++ parcellation_scheme
          ++ " parcellation scheme found for the sub-cortex."))
      else
        .ok (SUBCORTEX_MAPPING_CMD (pathParent source_file) (pathName source_file)
          subcortical_parcellation parcellation_scheme)

/-- Embeds `NativeRegistration.run_single_hemisphere` (the region-labeling
stage): build the labeling output dictionary, and when the output is missing
or `force` is set, configure and spawn the mapping command. This method
invokes no other stage. -/
def run_single_hemisphere (parcs : Parcs)
    (source_file parcellation_scheme hemi : String) (force : Bool) (s : PState) :
    Except PyError OutputDict × PState :=
  match build_output_dictionary source_file parcellation_scheme hemi s.fs with
  | .error e => (.error e, s)
  | .ok outputs =>
    if !outputs.existsOnDisk || force then
      if hemi ∈ HEMISPHERES_LABELS then
        match configure_cortex_mapping_command parcs source_file parcellation_scheme hemi with
        | .error e => (.error e, s)
        | .ok cmd => (.ok outputs, executeStage s .labeling cmd outputs.path)
      else if pyLower hemi = "subcortex" then
        match configure_subcortex_mapping_command parcs source_file parcellation_scheme with
        | .error e => (.error e, s)
        | .ok cmd => (.ok outputs, executeStage s .labeling cmd outputs.path)
      else (.error .unboundLocal, s)
    else (.ok outputs, s)

/-- Embeds the loop body of `NativeRegistration.run_dataset`: iterate the
participant labels, record each subject's result under its label, and on
`FileNotFoundError` or `TraitError` skip to the next subject (`continue`);
any other exception propagates. The per-subject body
(`self.run_single_subject(...)`) is abstracted as the parameter
`runSubject`. -/
def run_dataset_loop {α : Type} (runSubject : String → Except PyError α) :
    List String → List (String × α) → Except PyError (List (String × α))
  | [], acc => .ok acc
  | l :: rest, acc =>
    match runSubject l with
    | .ok v => run_dataset_loop runSubject rest (acc ++ [(l, v)])
    | .error e =>
      if e = .fileNotFound ∨ e = .traitError then run_dataset_loop runSubject rest acc
      else .error e

/-- Embeds `NativeRegistration.run_dataset` over an already-selected list of
participant labels (the source's preamble normalizes `participant_label` to a
list, defaulting to the sorted subject keys). -/
def run_dataset {α : Type} (participant_labels : List String)
    (runSubject : String → Except PyError α) : Except PyError (List (String × α)) :=
  run_dataset_loop runSubject participant_labels []

end FreesurferAnalyses.NativeRegistration

namespace FreesurferAnalyses.TransformationManager

open FreesurferAnalyses

/-- `TransformationManager.CORTICAL_MEASURES` (the source duplicates the list
from `NativeParcellation`). -/
def CORTICAL_MEASURES : List String :=
  ["area", "volume", "thickness", "thicknessstd", "thickness.T1",
   "meancurv", "gauscurv", "foldind", "curvind"]

/-- `TransformationManager.SUBCORTICAL_MEASURES`. -/
def SUBCORTICAL_MEASURES : List String := ["volume", "std", "mean"]

/-- Embeds `TransformationManager.check_measure` (note the argument order
`(measure, hemi)` of the source). -/
def check_measure (measure hemi : String) : Except PyError Unit :=
  if hemi ∈ HEMISPHERES_LABELS ∧ measure ∉ CORTICAL_MEASURES then
    .error (.valueError ("Cannot run cortical statistics on " ++ measure))
  else if hemi ∈ SUBCORTICAL_LABELS ∧ measure ∉ SUBCORTICAL_MEASURES then
    .error (.valueError ("Cannot run subcortical statistics on " ++ measure))
  else .ok ()

/-- Embeds `TransformationManager.build_output_dictionary`: `check_measure`
first, then the table path (the subcortical branch tests
`hemi.lower() in SUBCORTICAL_LABELS`, equivalent to equality with
`"subcortex"` since the list has that single element). -/
def build_output_dictionary (source_file parcellation_scheme hemi measure : String)
    (fs : List String) : Except PyError OutputDict :=
  match check_measure measure hemi with
  | .error e => .error e
  | .ok _ =>
    if hemi ∈ HEMISPHERES_LABELS then
      let output_file := source_file ++ "/stats/" ++ hemi ++ "_" ++ measure
        ++ "." ++ parcellation_scheme ++ ".csv"
      .ok ⟨output_file, fs.contains output_file⟩
    else if pyLower hemi ∈ SUBCORTICAL_LABELS then
      let output_file := source_file ++ "/stats/" ++ parcellation_scheme
        ++ "_subcortex_" ++ measure ++ ".csv"
      .ok ⟨output_file, fs.contains output_file⟩
    else .error .unboundLocal

end FreesurferAnalyses.TransformationManager

namespace FreesurferAnalyses.StructureManager

open FreesurferAnalyses

/-- `StructureManager.CORTICAL_MEASURES` (a different list from the
parcellation classes). -/
def CORTICAL_MEASURES : List String :=
  ["number_of_vertices", "surface_area_mm^2", "gray_matter_volume_mm^3",
   "average_thickness_mm", "thickness_stddev_mm",
   "integrated_rectified_mean_curvature_mm^-1",
   "integrated_rectified_gaussian_curvature_mm^-2",
   "folding_index", "intrinsic_curvature_index"]

/-- `StructureManager.SUBCORTICAL_MEASURES`. -/
def SUBCORTICAL_MEASURES : List String := ["volume", "std", "mean"]

/-- Embeds `StructureManager.check_measure`. -/
def check_measure (measure hemi : String) : Except PyError Unit :=
  if hemi ∈ HEMISPHERES_LABELS ∧ measure ∉ CORTICAL_MEASURES then
    .error (.valueError ("Cannot run cortical statistics on " ++ measure))
  else if hemi ∈ SUBCORTICAL_LABELS ∧ measure ∉ SUBCORTICAL_MEASURES then
    .error (.valueError ("Cannot run subcortical statistics on " ++ measure))
  else .ok ()

/-- Embeds the loop of `StructureManager.run_dataset`: iterate the selected
participant labels, concatenating each subject's table; there is no exception
handler, so any error raised for one subject aborts the whole dataset run.
The per-subject body (`self.run_single_subject(...)`) is abstracted as the
parameter `runSubject`. -/
def run_dataset_loop {α : Type} (runSubject : String → Except PyError α) :
    List String → List α → Except PyError (List α)
  | [], acc => .ok acc
  | l :: rest, acc =>
    match runSubject l with
    | .ok v => run_dataset_loop runSubject rest (acc ++ [v])
    | .error e => .error e

/-- Embeds `StructureManager.run_dataset` over an already-selected list of
participant labels (the source's `validate_participant_label` preamble
normalizes the argument to a list, defaulting to the sorted subject keys). -/
def run_dataset {α : Type} (participant_labels : List String)
    (runSubject : String → Except PyError α) : Except PyError (List α) :=
  run_dataset_loop runSubject participant_labels []

end FreesurferAnalyses.StructureManager

namespace FreesurferAnalyses.Bids

open FreesurferAnalyses

/-- `data/bids.py`'s `BIDS_ENTITIES` registry, flattened to entity name and
its `pattern` value. -/
def BIDS_ENTITIES : List (String × String) :=
  [("ceagent", "ce-([a-zA-Z0-9]+)"),
   ("atlas", "atlas-([a-zA-Z0-9]+)"),
   ("roi", "roi-([a-zA-Z0-9]+)"),
   ("label", "label-([a-zA-Z0-9]+)"),
   ("desc", "desc-([a-zA-Z0-9]+)"),
   ("resolution", "res-([a-zA-Z0-9]+)"),
   ("from", "(?:^|_)from-([a-zA-Z0-9]+).*xfm"),
   ("to", "(?:^|_)to-([a-zA-Z0-9]+).*xfm"),
   ("mode", "(?:^|_)mode-([a-zA-Z0-9]+).*xfm"),
   ("hemi", "hemi-(L|R)"),
   ("den", "den-([a-zA-Z0-9]+)"),
   ("model", "model-([a-zA-Z0-9]+)"),
   ("subset", "subset-([a-zA-Z0-9]+)"),
   ("session", "ses-([a-zA-Z0-9]+)")]

/-- One filter key's flag in `match_filters`: some underscore-separated part
of the filename both matches the entity's pattern (`re.match`, abstracted as
the parameter `rmatch` since regular-expression semantics live in Python's
`re` library) and carries the requested value after its last `"-"`. -/
def matchKey (rmatch : String → String → Bool) (parts : List String)
    (pattern value : String) : Bool :=
  parts.any (fun part =>
    rmatch pattern part && ((part.splitOn "-").getLastD "" == value))

/-- The filter loop of `utils/bids.py`'s `match_filters`: every filter key is
looked up in `BIDS_ENTITIES`, raising `ValueError` for a key outside the
registry; otherwise the key's flag is computed and all flags are conjoined. -/
def match_filters_loop (rmatch : String → String → Bool) (parts : List String) :
    List (String × String) → Except PyError Bool
  | [] => .ok true
  | (key, value) :: rest =>
    match dictGet BIDS_ENTITIES key with
    | none => .error (.valueError (key ++ " is not a valid BIDS entity"))
    | some pattern =>
      match match_filters_loop rmatch parts rest with
      | .error e => .error e
      | .ok b => .ok (matchKey rmatch parts pattern value && b)

/-- Embeds `utils/bids.py`'s `match_filters`: split the file name on `"_"`
and run the filter loop. -/
def match_filters (rmatch : String → String → Bool) (in_file : String)
    (bids_filters : List (String × String)) : Except PyError Bool :=
  match_filters_loop rmatch ((pathName in_file).splitOn "_") bids_filters

/-- Modelled from the spec: `DataGrabber.build_path` (in
`utils/data_grabber.py`) delegates entity rendering to the external `pybids`
library (`self.layout.build_path`), whose code is not part of this
repository. Per the specification, rendering merges the overrides onto the
parsed entity mapping (overrides win) and fails with an `UnknownEntity` error
when an override key is absent from the registry. -/
def build_path_render (entities : List (String × String)) :
    List (String × String) → Except PyError (List (String × String))
  | [] => .ok entities
  | (key, value) :: rest =>
    match dictGet BIDS_ENTITIES key with
    | none => .error (.valueError (key ++ " is not a valid BIDS entity"))
    | some _ => build_path_render ((key, value) :: entities) rest

end FreesurferAnalyses.Bids

namespace FreesurferAnalyses

/-- C3: for each of the two region groups, measure validation succeeds
exactly when the measure belongs to that group's fixed allowed set;
`TransformationManager.check_measure` agrees with
`NativeParcellation.validate_measure`; validating `"volume"` for a
hemispheric label succeeds and validating `"thickness"` for the subcortical
label raises a `ValueError`. -/
theorem claim_c3_validate_measure_iff :
    (∀ hemi measure : String, hemi ∈ HEMISPHERES_LABELS →
      (NativeParcellation.validate_measure hemi measure = .ok () ↔
        measure ∈ NativeParcellation.CORTICAL_MEASURES)) ∧
    (∀ hemi measure : String, hemi ∈ SUBCORTICAL_LABELS →
      (NativeParcellation.validate_measure hemi measure = .ok () ↔
        measure ∈ NativeParcellation.SUBCORTICAL_MEASURES)) ∧
    (∀ hemi measure : String,
      TransformationManager.check_measure measure hemi =
        NativeParcellation.validate_measure hemi measure) ∧
    NativeParcellation.validate_measure "lh" "volume" = .ok () ∧
    NativeParcellation.validate_measure "subcortex" "thickness" =
      .error (.valueError "Cannot run subcortical statistics on thickness") := by
  refine ⟨?_, ?_, ?_, by decide, by decide⟩
  · intro hemi measure h
    have h' : hemi = "lh" ∨ hemi = "rh" := by
      simpa [HEMISPHERES_LABELS] using h
    unfold NativeParcellation.validate_measure
    rcases h' with rfl | rfl <;>
      by_cases hm : measure ∈ NativeParcellation.CORTICAL_MEASURES <;>
        simp [HEMISPHERES_LABELS, SUBCORTICAL_LABELS, hm]
  · intro hemi measure h
    have h' : hemi = "subcortex" := by
      simpa [SUBCORTICAL_LABELS] using h
    subst h'
    unfold NativeParcellation.validate_measure
    by_cases hm : measure ∈ NativeParcellation.SUBCORTICAL_MEASURES <;>
      simp [HEMISPHERES_LABELS, SUBCORTICAL_LABELS, hm]
  · intro hemi measure
    unfold TransformationManager.check_measure NativeParcellation.validate_measure
    rfl

/-- Witness for C3 at the concrete inputs named by the claim. -/
theorem claim_c3_witness :
    NativeParcellation.validate_measure "lh" "volume" = .ok () ∧
    ¬ NativeParcellation.validate_measure "subcortex" "thickness" = .ok () := by
  constructor
  · exact (claim_c3_validate_measure_iff.1 "lh" "volume" (by decide)).mpr (by decide)
  · intro hcontra
    have := (claim_c3_validate_measure_iff.2.1 "subcortex" "thickness" (by decide)).mp hcontra
    exact absurd this (by decide)

/-- C9: for a region label that is neither hemispheric nor the subcortical
label, every measure-validation routine returns without raising, for any
measure. -/
theorem claim_c9_unknown_region_noop (hemi measure : String)
    (h1 : hemi ∉ HEMISPHERES_LABELS) (h2 : hemi ∉ SUBCORTICAL_LABELS) :
    NativeParcellation.validate_measure hemi measure = .ok () ∧
    TransformationManager.check_measure measure hemi = .ok () ∧
    StructureManager.check_measure measure hemi = .ok () := by
  refine ⟨?_, ?_, ?_⟩ <;>
    simp [NativeParcellation.validate_measure, TransformationManager.check_measure,
      StructureManager.check_measure, h1, h2]

/-- Witness for C9 at the concrete label `"cerebellum"`. -/
theorem claim_c9_witness :
    NativeParcellation.validate_measure "cerebellum" "thickness" = .ok () ∧
    TransformationManager.check_measure "thickness" "cerebellum" = .ok () ∧
    StructureManager.check_measure "thickness" "cerebellum" = .ok () :=
  claim_c9_unknown_region_noop "cerebellum" "thickness" (by decide) (by decide)

/-- C10: for a region label that is neither a hemispheric label nor
(case-insensitively) `"subcortex"`, the output-dictionary builders reach the
unbound-local fall-through: they fail with `UnboundLocalError` rather than
returning a path or a validation error. -/
theorem claim_c10_unbound_local (source_file parcellation_scheme hemi : String)
    (fs : List String) (h1 : hemi ∉ HEMISPHERES_LABELS)
    (h2 : pyLower hemi ≠ "subcortex") :
    NativeParcellation.build_stats_output_dictionary
        source_file parcellation_scheme hemi fs = .error .unboundLocal ∧
    NativeRegistration.build_output_dictionary
        source_file parcellation_scheme hemi fs = .error .unboundLocal := by
  constructor <;>
    simp [NativeParcellation.build_stats_output_dictionary,
      NativeRegistration.build_output_dictionary, h1, h2]

/-- Witness for C10 at the concrete label `"cerebellum"`. -/
theorem claim_c10_witness :
    NativeParcellation.build_stats_output_dictionary
        "/data/sub-01" "schemeX" "cerebellum" [] = .error .unboundLocal ∧
    NativeRegistration.build_output_dictionary
        "/data/sub-01" "schemeX" "cerebellum" [] = .error .unboundLocal :=
  claim_c10_unbound_local "/data/sub-01" "schemeX" "cerebellum" []
    (by decide) (by decide)

end FreesurferAnalyses

namespace FreesurferAnalyses

/-- C7: each output-dictionary builder computes its canonical path as a pure
deterministic function of its inputs, with the fixed per-stage destination
subdirectory and filename pattern of the sources: hemispheric stats under
`stats/hemi.scheme.stats`, subcortical stats under
`stats/scheme_subcortex.stats`, hemispheric tables under
`stats/hemi_measure.scheme.csv`, subcortical tables under
`stats/scheme_subcortex_measure.csv`, and labeling outputs under
`label/hemi.scheme.annot` and `mri/scheme_subcortex.mgz`; the path never
depends on the filesystem contents. -/
theorem claim_c7_canonical_paths :
    (∀ src scheme hemi : String, ∀ fs : List String, hemi ∈ HEMISPHERES_LABELS →
      pathOf (NativeParcellation.build_stats_output_dictionary src scheme hemi fs)
        = .ok (src ++ "/" ++ "stats" ++ "/" ++ (hemi ++ "." ++ scheme ++ ".stats"))) ∧
    (∀ src scheme hemi : String, ∀ fs : List String,
      hemi ∉ HEMISPHERES_LABELS → pyLower hemi = "subcortex" →
      pathOf (NativeParcellation.build_stats_output_dictionary src scheme hemi fs)
        = .ok (src ++ "/" ++ "stats" ++ "/" ++ (scheme ++ "_subcortex.stats"))) ∧
    (∀ src scheme hemi measure : String, ∀ fs : List String, hemi ∈ HEMISPHERES_LABELS →
      measure ∈ NativeParcellation.CORTICAL_MEASURES →
      pathOf (NativeParcellation.build_table_output_dictionary src scheme hemi measure fs)
        = .ok (src ++ "/" ++ "stats" ++ "/" ++ (hemi ++ "_" ++ measure ++ "." ++ scheme ++ ".csv"))) ∧
    (∀ src scheme hemi measure : String, ∀ fs : List String,
      hemi ∉ HEMISPHERES_LABELS → pyLower hemi = "subcortex" →
      measure ∈ NativeParcellation.SUBCORTICAL_MEASURES →
      pathOf (NativeParcellation.build_table_output_dictionary src scheme hemi measure fs)
        = .ok (src ++ "/" ++ "stats" ++ "/" ++ (scheme ++ "_subcortex_" ++ measure ++ ".csv"))) ∧
    (∀ src scheme hemi : String, ∀ fs : List String, hemi ∈ HEMISPHERES_LABELS →
      pathOf (NativeRegistration.build_output_dictionary src scheme hemi fs)
        = .ok (src ++ "/" ++ "label" ++ "/" ++ (hemi ++ "." ++ scheme ++ ".annot"))) ∧
    (∀ src scheme hemi : String, ∀ fs : List String,
      hemi ∉ HEMISPHERES_LABELS → pyLower hemi = "subcortex" →
      pathOf (NativeRegistration.build_output_dictionary src scheme hemi fs)
        = .ok (src ++ "/" ++ "mri" ++ "/" ++ (scheme ++ "_subcortex.mgz"))) ∧
    (∀ src scheme hemi measure : String, ∀ fs fs' : List String,
      pathOf (NativeParcellation.build_stats_output_dictionary src scheme hemi fs)
        = pathOf (NativeParcellation.build_stats_output_dictionary src scheme hemi fs') ∧
      pathOf (NativeParcellation.build_table_output_dictionary src scheme hemi measure fs)
        = pathOf (NativeParcellation.build_table_output_dictionary src scheme hemi measure fs') ∧
      pathOf (NativeRegistration.build_output_dictionary src scheme hemi fs)
        = pathOf (NativeRegistration.build_output_dictionary src scheme hemi fs')) := by
  refine ⟨?_, ?_, ?_, ?_, ?_, ?_, ?_⟩
  · intro src scheme hemi fs h
    simp [NativeParcellation.build_stats_output_dictionary, pathOf, Except.map, h,
      NativeParcellation.DEFAULT_CORTICAL_STATS_DESTINATION,
      NativeParcellation.DEFAULT_CORTICAL_STATS_PATTERN]
  · intro src scheme hemi fs h1 h2
    simp [NativeParcellation.build_stats_output_dictionary, pathOf, Except.map, h1, h2,
      NativeParcellation.DEFAULT_SUBCORTICAL_STATS_DESTINATION,
      NativeParcellation.DEFAULT_SUBCORTICAL_STATS_PATTERN]
  · intro src scheme hemi measure fs h hm
    have h' : hemi = "lh" ∨ hemi = "rh" := by simpa [HEMISPHERES_LABELS] using h
    have hval : NativeParcellation.validate_measure hemi measure = .ok () := by
      unfold NativeParcellation.validate_measure
      rcases h' with rfl | rfl <;> simp [HEMISPHERES_LABELS, SUBCORTICAL_LABELS, hm]
    simp [NativeParcellation.build_table_output_dictionary, hval, pathOf, Except.map, h,
      NativeParcellation.DEFAULT_CORTICAL_TABLES_DESTINATION,
      NativeParcellation.DEFAULT_CORTICAL_TABLES_PATTERN]
  · intro src scheme hemi measure fs h1 h2 hm
    have hval : NativeParcellation.validate_measure hemi measure = .ok () := by
      unfold NativeParcellation.validate_measure
      simp [SUBCORTICAL_LABELS, h1, hm]
    simp [NativeParcellation.build_table_output_dictionary, hval, pathOf, Except.map, h1, h2,
      NativeParcellation.DEFAULT_SUBCORTICAL_TABLES_DESTINATION,
      NativeParcellation.DEFAULT_SUBCORTICAL_TABLES_PATTERN]
  · intro src scheme hemi fs h
    simp [NativeRegistration.build_output_dictionary, pathOf, Except.map, h,
      NativeRegistration.DEFAULT_CORTICAL_OUTPUT_DESTINATION,
      NativeRegistration.DEFAULT_CORTICAL_OUTPUT_PATTERN]
  · intro src scheme hemi fs h1 h2
    simp [NativeRegistration.build_output_dictionary, pathOf, Except.map, h1, h2,
      NativeRegistration.DEFAULT_SUBCORTICAL_OUTPUT_DESTINATION,
      NativeRegistration.DEFAULT_SUBCORTICAL_OUTPUT_PATTERN]
  · intro src scheme hemi measure fs fs'
    refine ⟨?_, ?_, ?_⟩
    · unfold NativeParcellation.build_stats_output_dictionary
      split <;> (try split) <;> simp [pathOf, Except.map]
    · unfold NativeParcellation.build_table_output_dictionary
      rcases NativeParcellation.validate_measure hemi measure with e | u
      · rfl
      · split <;> (try split) <;> (try split_ifs) <;> simp [pathOf, Except.map]
    · unfold NativeRegistration.build_output_dictionary
      split <;> (try split) <;> simp [pathOf, Except.map]

/-- Witness for C7 at concrete inputs for every branch. -/
theorem claim_c7_witness :
    pathOf (NativeParcellation.build_stats_output_dictionary
        "/data/sub-01" "schemeX" "lh" []) = .ok "/data/sub-01/stats/lh.schemeX.stats" ∧
    pathOf (NativeParcellation.build_stats_output_dictionary
        "/data/sub-01" "schemeX" "subcortex" []) = .ok "/data/sub-01/stats/schemeX_subcortex.stats" ∧
    pathOf (NativeParcellation.build_table_output_dictionary
        "/data/sub-01" "schemeX" "lh" "volume" []) = .ok "/data/sub-01/stats/lh_volume.schemeX.csv" ∧
    pathOf (NativeParcellation.build_table_output_dictionary
        "/data/sub-01" "schemeX" "subcortex" "volume" []) = .ok "/data/sub-01/stats/schemeX_subcortex_volume.csv" ∧
    pathOf (NativeRegistration.build_output_dictionary
        "/data/sub-01" "schemeX" "rh" []) = .ok "/data/sub-01/label/rh.schemeX.annot" ∧
    pathOf (NativeRegistration.build_output_dictionary
        "/data/sub-01" "schemeX" "subcortex" []) = .ok "/data/sub-01/mri/schemeX_subcortex.mgz" := by
  obtain ⟨t1, t2, t3, t4, t5, t6, -⟩ := claim_c7_canonical_paths
  refine ⟨?_, ?_, ?_, ?_, ?_, ?_⟩
  · simpa using t1 "/data/sub-01" "schemeX" "lh" [] (by decide)
  · simpa using t2 "/data/sub-01" "schemeX" "subcortex" [] (by decide) (by decide)
  · simpa using t3 "/data/sub-01" "schemeX" "lh" "volume" [] (by decide) (by decide)
  · simpa using t4 "/data/sub-01" "schemeX" "subcortex" "volume" [] (by decide) (by decide) (by decide)
  · simpa using t5 "/data/sub-01" "schemeX" "rh" [] (by decide)
  · simpa using t6 "/data/sub-01" "schemeX" "subcortex" [] (by decide) (by decide)

end FreesurferAnalyses

namespace FreesurferAnalyses.NativeParcellation

open FreesurferAnalyses

/-- Helper: the canonical cortical stats path assembled by
`build_stats_output_dictionary`. -/
def cortStatsPath (src scheme hemi : String) : String :=
  src ++ "/" ++ DEFAULT_CORTICAL_STATS_DESTINATION ++ "/"
    ++ DEFAULT_CORTICAL_STATS_PATTERN hemi scheme

/-- Helper: the canonical cortical table path assembled by
`build_table_output_dictionary`. -/
def cortTablePath (src scheme hemi measure : String) : String :=
  src ++ "/" ++ DEFAULT_CORTICAL_TABLES_DESTINATION ++ "/"
    ++ DEFAULT_CORTICAL_TABLES_PATTERN hemi measure scheme

lemma build_stats_cortical (src scheme hemi : String) (fs : List String)
    (hh : hemi ∈ HEMISPHERES_LABELS) :
    build_stats_output_dictionary src scheme hemi fs
      = .ok ⟨cortStatsPath src scheme hemi, fs.contains (cortStatsPath src scheme hemi)⟩ := by
  simp [build_stats_output_dictionary, cortStatsPath, hh]

lemma validate_measure_cortical_ok (hemi measure : String)
    (hh : hemi ∈ HEMISPHERES_LABELS) (hm : measure ∈ CORTICAL_MEASURES) :
    validate_measure hemi measure = .ok () := by
  have h' : hemi = "lh" ∨ hemi = "rh" := by simpa [HEMISPHERES_LABELS] using hh
  unfold validate_measure
  rcases h' with rfl | rfl <;> simp [HEMISPHERES_LABELS, SUBCORTICAL_LABELS, hm]

lemma build_table_cortical (src scheme hemi measure : String) (fs : List String)
    (hh : hemi ∈ HEMISPHERES_LABELS) (hm : measure ∈ CORTICAL_MEASURES) :
    build_table_output_dictionary src scheme hemi measure fs
      = .ok ⟨cortTablePath src scheme hemi measure,
             fs.contains (cortTablePath src scheme hemi measure)⟩ := by
  unfold build_table_output_dictionary
  rw [validate_measure_cortical_ok hemi measure hh hm]
  simp [cortTablePath, hh]

lemma parcellate_cortical_skip (parcs : Parcs) (src scheme hemi : String) (s : PState)
    (hh : hemi ∈ HEMISPHERES_LABELS)
    (hex : s.fs.contains (cortStatsPath src scheme hemi) = true) :
    parcellate_single_hemisphere parcs src scheme hemi false s
      = (.ok ⟨cortStatsPath src scheme hemi, true⟩, s) := by
  unfold parcellate_single_hemisphere
  rw [build_stats_cortical src scheme hemi s.fs hh]
  have hmem : cortStatsPath src scheme hemi ∈ s.fs := by simpa using hex
  simp [hmem]

lemma parcellate_cortical_spawn (parcs : Parcs) (src scheme hemi lut : String)
    (force : Bool) (s : PState) (hh : hemi ∈ HEMISPHERES_LABELS)
    (hlut : validate_parcellation parcs scheme "ctab" = .ok lut)
    (hrun : s.fs.contains (cortStatsPath src scheme hemi) = false ∨ force = true) :
    parcellate_single_hemisphere parcs src scheme hemi force s
      = (.ok ⟨cortStatsPath src scheme hemi, s.fs.contains (cortStatsPath src scheme hemi)⟩,
         executeStage (set_subjects_dir s (pathParent src)) .statistics
           (PARCELLATION_CORTICAL_STATISTICS_CMD (pathParent src) (pathName src)
             hemi scheme lut)
           (cortStatsPath src scheme hemi)) := by
  unfold parcellate_single_hemisphere
  rw [build_stats_cortical src scheme hemi s.fs hh]
  rcases hrun with hr | hr
  · have hmem : cortStatsPath src scheme hemi ∉ s.fs := by simpa using hr
    simp [hr, hmem, hh, configure_cortex_parcellation_command, hlut]
  · subst hr
    simp [hh, configure_cortex_parcellation_command, hlut]

lemma parcellate_cortical_ok_mem (parcs : Parcs) (src scheme hemi : String)
    (force : Bool) (s : PState) (out : OutputDict) (s' : PState)
    (hh : hemi ∈ HEMISPHERES_LABELS)
    (h : parcellate_single_hemisphere parcs src scheme hemi force s = (.ok out, s')) :
    s'.fs.contains (cortStatsPath src scheme hemi) = true := by
  unfold parcellate_single_hemisphere at h
  rw [build_stats_cortical src scheme hemi s.fs hh] at h
  by_cases hex : s.fs.contains (cortStatsPath src scheme hemi) = true
  · rw [hex] at h
    cases force with
    | false =>
      simp at h
      rw [← h.2, hex]
    | true =>
      simp [hh] at h
      rcases hconf : configure_cortex_parcellation_command parcs src scheme hemi with e | cmd <;>
        rw [hconf] at h <;> simp at h
      rw [← h.2]
      simp [executeStage, cortStatsPath]
  · rw [Bool.not_eq_true] at hex
    rw [hex] at h
    simp [hh] at h
    rcases hconf : configure_cortex_parcellation_command parcs src scheme hemi with e | cmd <;>
      rw [hconf] at h <;> simp at h
    rw [← h.2]
    simp [executeStage, cortStatsPath]

lemma run_single_cortical_skip (parcs : Parcs) (src scheme hemi measure : String)
    (s : PState) (hh : hemi ∈ HEMISPHERES_LABELS) (hm : measure ∈ CORTICAL_MEASURES)
    (hstats : s.fs.contains (cortStatsPath src scheme hemi) = true)
    (htable : s.fs.contains (cortTablePath src scheme hemi measure) = true) :
    run_single_hemisphere parcs src scheme hemi measure false s
      = (.ok ⟨cortTablePath src scheme hemi measure, true⟩, s) := by
  unfold run_single_hemisphere
  rw [parcellate_cortical_skip parcs src scheme hemi s hh hstats]
  simp only []
  rw [build_table_cortical src scheme hemi measure s.fs hh hm]
  have hmem : cortTablePath src scheme hemi measure ∈ s.fs := by simpa using htable
  simp [hmem]

end FreesurferAnalyses.NativeParcellation

namespace FreesurferAnalyses.NativeParcellation

open FreesurferAnalyses

lemma run_single_cortical_force (parcs : Parcs) (src scheme hemi measure lut : String)
    (s : PState) (hh : hemi ∈ HEMISPHERES_LABELS) (hm : measure ∈ CORTICAL_MEASURES)
    (hlut : validate_parcellation parcs scheme "ctab" = .ok lut) :
    run_single_hemisphere parcs src scheme hemi measure true s
      = (let s1 := executeStage (set_subjects_dir s (pathParent src)) .statistics
           (PARCELLATION_CORTICAL_STATISTICS_CMD (pathParent src) (pathName src)
             hemi scheme lut)
           (cortStatsPath src scheme hemi)
         (.ok ⟨cortTablePath src scheme hemi measure,
               s1.fs.contains (cortTablePath src scheme hemi measure)⟩,
          executeStage (set_subjects_dir s1 (pathParent src)) .tableExport
            (configure_cortex_transformation_command src scheme measure hemi)
            (cortTablePath src scheme hemi measure))) := by
  unfold run_single_hemisphere
  rw [parcellate_cortical_spawn parcs src scheme hemi lut true s hh hlut (Or.inr rfl)]
  simp only []
  rw [build_table_cortical src scheme hemi measure _ hh hm]
  simp [hh]



end FreesurferAnalyses.NativeParcellation

namespace FreesurferAnalyses

/-- Concrete parcellation registry used by witnesses and counterexamples. -/
def demoParcs : Parcs :=
  [("schemeX", [("ctab", "/luts/schemeX.ctab"), ("gcs", "/luts/schemeX.gcs"),
                ("gcs_subcortex", "/luts/schemeX.gca")])]

/-- Concrete state in which both cortical outputs of `sub-01` exist. -/
def demoState : PState :=
  ⟨["/data/sub-01/stats/lh.schemeX.stats", "/data/sub-01/stats/lh_volume.schemeX.csv"],
   none, []⟩



/-- Concrete state refuting C1: the table-stage unit's canonical output (the
csv) exists, but the upstream stats output does not. -/
def c1State : PState :=
  ⟨["/data/sub-01/stats/lh_volume.schemeX.csv"], none, []⟩

/-- Counterexample to C1 as stated: for the table-stage unit
`(/data/sub-01, schemeX, lh, volume)` whose canonical output already exists,
running the unit with `force=false` nevertheless spawns a subprocess (the
upstream statistics command), so the second and third conjuncts below refute
"performs no external subprocess invocation". -/
theorem claim_c1_counterexample :
    c1State.fs.contains
        (NativeParcellation.cortTablePath "/data/sub-01" "schemeX" "lh" "volume") = true ∧
    (NativeParcellation.run_single_hemisphere demoParcs "/data/sub-01" "schemeX"
        "lh" "volume" false c1State).2.trace.map Spawned.stage = [.statistics] ∧
    ¬ (NativeParcellation.run_single_hemisphere demoParcs "/data/sub-01" "schemeX"
        "lh" "volume" false c1State).2.trace = [] := by
  refine ⟨by decide, by decide, by decide⟩



end FreesurferAnalyses

namespace FreesurferAnalyses

/-- Counterexample to C6 as stated: calling the table-export unit with the
invalid measure `"notameasure"` does raise the measure-validation
`ValueError`, but only after the upstream statistics subprocess has already
been spawned by the same call — so validation is not "raised before any
external process is spawned". -/
theorem claim_c6_counterexample :
    (NativeParcellation.run_single_hemisphere demoParcs "/data/sub-01" "schemeX"
        "lh" "notameasure" false ⟨[], none, []⟩).1
      = .error (.valueError "Cannot run cortical statistics on notameasure") ∧
    (NativeParcellation.run_single_hemisphere demoParcs "/data/sub-01" "schemeX"
        "lh" "notameasure" false ⟨[], none, []⟩).2.trace.map Spawned.stage
      = [.statistics] ∧
    ¬ (NativeParcellation.run_single_hemisphere demoParcs "/data/sub-01" "schemeX"
        "lh" "notameasure" false ⟨[], none, []⟩).2.trace = [] := by
  refine ⟨by decide, by decide, by decide⟩



/-- C2 (evaluating the code at the failing input): running the table-export
unit `(/data/sub-01, schemeX, lh, volume)` from an empty filesystem spawns
exactly the statistics command followed by the table-export command — the
region-labeling stage is never triggered, its command never appears in the
trace, and its canonical artifact (`label/lh.schemeX.annot`) is never
created, even though the spawned statistics command consumes that very
artifact. -/
theorem claim_c2_no_labeling_stage :
    (NativeParcellation.run_single_hemisphere demoParcs "/data/sub-01" "schemeX"
        "lh" "volume" false ⟨[], none, []⟩).2.trace.map Spawned.stage
      = [.statistics, .tableExport] ∧
    Stage.labeling ∉
      (NativeParcellation.run_single_hemisphere demoParcs "/data/sub-01" "schemeX"
        "lh" "volume" false ⟨[], none, []⟩).2.trace.map Spawned.stage ∧
    ¬ (NativeParcellation.run_single_hemisphere demoParcs "/data/sub-01" "schemeX"
        "lh" "volume" false ⟨[], none, []⟩).2.fs.contains
        ("/data/sub-01" ++ "/" ++ NativeRegistration.DEFAULT_CORTICAL_OUTPUT_DESTINATION
          ++ "/" ++ NativeRegistration.DEFAULT_CORTICAL_OUTPUT_PATTERN "lh" "schemeX") = true := by
  refine ⟨by decide, by decide, by decide⟩

end FreesurferAnalyses

namespace FreesurferAnalyses

lemma run_dataset_loop_skips_recoverable {α : Type} (f : String → Except PyError α)
    (g : String → α) (bad : String)
    (hbad : f bad = .error .fileNotFound)
    (hok : ∀ l, l ≠ bad → f l = .ok (g l)) :
    ∀ (labels : List String) (acc : List (String × α)),
      NativeRegistration.run_dataset_loop f labels acc
        = .ok (acc ++ (labels.filter (fun l => !(l == bad))).map (fun l => (l, g l))) := by
  intro labels
  induction labels with
  | nil => intro acc; simp [NativeRegistration.run_dataset_loop]
  | cons l rest ih =>
    intro acc
    by_cases hl : l = bad
    · subst hl
      simp only [NativeRegistration.run_dataset_loop]
      rw [hbad]
      simp [ih]
    · simp only [NativeRegistration.run_dataset_loop]
      rw [hok l hl]
      simp [ih, hl]

lemma structure_run_dataset_loop_aborts {α : Type} (f : String → Except PyError α)
    (g : String → α) (bad : String)
    (hbad : f bad = .error .fileNotFound)
    (hok : ∀ l, l ≠ bad → f l = .ok (g l)) :
    ∀ (labels : List String) (acc : List α), bad ∈ labels →
      StructureManager.run_dataset_loop f labels acc = .error .fileNotFound := by
  intro labels
  induction labels with
  | nil => intro acc h; simp at h
  | cons l rest ih =>
    intro acc h
    by_cases hl : l = bad
    · subst hl
      simp only [StructureManager.run_dataset_loop]
      rw [hbad]
    · have hrest : bad ∈ rest := by
        rcases List.mem_cons.mp h with h' | h'
        · exact absurd h'.symm hl
        · exact h'
      simp only [StructureManager.run_dataset_loop]
      rw [hok l hl]
      exact ih _ hrest

/-- C5 (amended): when one subject fails with a recoverable error
(`FileNotFoundError`/`TraitError` in `NativeRegistration.run_dataset`), the
dataset run is not aborted and every other subject is still processed — but
the failed subject is silently omitted from the returned mapping rather than
recorded with a failure marker; and `StructureManager.run_dataset`, which has
no handler at all, aborts the whole run on the same error. -/
theorem claim_c5_recoverable_failure {α : Type} (labels : List String) (bad : String)
    (f : String → Except PyError α) (g : String → α)
    (hbad : f bad = .error .fileNotFound)
    (hok : ∀ l, l ≠ bad → f l = .ok (g l)) :
    NativeRegistration.run_dataset labels f
      = .ok ((labels.filter (fun l => !(l == bad))).map (fun l => (l, g l))) ∧
    (∀ res, NativeRegistration.run_dataset labels f = .ok res →
      bad ∉ res.map Prod.fst) ∧
    (bad ∈ labels → StructureManager.run_dataset labels f = .error .fileNotFound) := by
  have h1 := run_dataset_loop_skips_recoverable f g bad hbad hok labels []
  refine ⟨by simpa [NativeRegistration.run_dataset] using h1, ?_, ?_⟩
  · intro res hres
    rw [NativeRegistration.run_dataset] at hres
    rw [h1] at hres
    injection hres with hres
    subst hres
    simp
  · intro hmem
    exact structure_run_dataset_loop_aborts f g bad hbad hok labels [] hmem

/-- Per-subject runner used by the C5 counterexample and witness: subject
`"02"` fails with the recoverable `FileNotFoundError`, every other subject
succeeds. -/
def c5Runner : String → Except PyError String :=
  fun l => if l = "02" then .error .fileNotFound else .ok ("processed-" ++ l)

/-- Counterexample to C5 as stated: with subjects `01`, `02`, `03` and `02`
failing recoverably, `NativeRegistration.run_dataset` returns a mapping that
contains the other subjects but no entry at all for `02` — there is no
explicit failure marker for the failed subject. -/
theorem claim_c5_counterexample :
    NativeRegistration.run_dataset ["01", "02", "03"] c5Runner
      = .ok [("01", "processed-01"), ("03", "processed-03")] ∧
    "02" ∉ ([("01", "processed-01"), ("03", "processed-03")] : List (String × String)).map
      Prod.fst := by
  refine ⟨by decide, by decide⟩

/-- Witness for the amended C5 at the concrete three-subject dataset. -/
theorem claim_c5_witness :
    NativeRegistration.run_dataset ["01", "02", "03"] c5Runner
      = .ok (((["01", "02", "03"].filter (fun l => !(l == "02"))).map
          (fun l => (l, "processed-" ++ l)))) ∧
    StructureManager.run_dataset ["01", "02", "03"] c5Runner = .error .fileNotFound := by
  have h := claim_c5_recoverable_failure ["01", "02", "03"] "02" c5Runner
    (fun l => "processed-" ++ l) (by decide)
    (fun l hl => by unfold c5Runner; rw [if_neg hl])
  exact ⟨h.1, h.2.2 (by decide)⟩

end FreesurferAnalyses

namespace FreesurferAnalyses

lemma match_filters_loop_unknown_key (rmatch : String → String → Bool)
    (parts : List String) :
    ∀ (filters : List (String × String)) (key value : String),
      (key, value) ∈ filters → dictGet Bids.BIDS_ENTITIES key = none →
      ∃ msg, Bids.match_filters_loop rmatch parts filters = .error (.valueError msg) := by
  intro filters
  induction filters with
  | nil => intro key value h _; simp at h
  | cons kv rest ih =>
    intro key value h hnone
    obtain ⟨k, v⟩ := kv
    rcases List.mem_cons.mp h with h' | h'
    · obtain ⟨hk, -⟩ := Prod.mk.injEq .. ▸ h'
      subst hk
      simp only [Bids.match_filters_loop]
      rw [hnone]
      exact ⟨key ++ " is not a valid BIDS entity", rfl⟩
    · simp only [Bids.match_filters_loop]
      rcases hk : dictGet Bids.BIDS_ENTITIES k with _ | pattern
      · exact ⟨k ++ " is not a valid BIDS entity", rfl⟩
      · obtain ⟨msg, hmsg⟩ := ih key value h' hnone
        rw [hmsg]
        exact ⟨msg, rfl⟩

lemma build_path_render_unknown_key :
    ∀ (overrides entities : List (String × String)) (key value : String),
      (key, value) ∈ overrides → dictGet Bids.BIDS_ENTITIES key = none →
      ∃ msg, Bids.build_path_render entities overrides = .error (.valueError msg) := by
  intro overrides
  induction overrides with
  | nil => intro entities key value h _; simp at h
  | cons kv rest ih =>
    intro entities key value h hnone
    obtain ⟨k, v⟩ := kv
    rcases List.mem_cons.mp h with h' | h'
    · obtain ⟨hk, -⟩ := Prod.mk.injEq .. ▸ h'
      subst hk
      simp only [Bids.build_path_render]
      rw [hnone]
      exact ⟨key ++ " is not a valid BIDS entity", rfl⟩
    · simp only [Bids.build_path_render]
      rcases hk : dictGet Bids.BIDS_ENTITIES k with _ | pattern
      · exact ⟨k ++ " is not a valid BIDS entity", rfl⟩
      · exact ih ((k, v) :: entities) key value h' hnone

/-- C8: a filter or override key outside the fixed `BIDS_ENTITIES` registry
is never silently accepted: `match_filters` raises a `ValueError` for any
filter set containing such a key (for every matcher and input file), and the
spec-modelled rendering behind `DataGrabber.build_path` likewise fails for
any override set containing such a key. -/
theorem claim_c8_unknown_entity :
    (∀ (rmatch : String → String → Bool) (in_file : String)
        (filters : List (String × String)) (key value : String),
      (key, value) ∈ filters → dictGet Bids.BIDS_ENTITIES key = none →
      ∃ msg, Bids.match_filters rmatch in_file filters = .error (.valueError msg)) ∧
    (∀ (entities overrides : List (String × String)) (key value : String),
      (key, value) ∈ overrides → dictGet Bids.BIDS_ENTITIES key = none →
      ∃ msg, Bids.build_path_render entities overrides = .error (.valueError msg)) := by
  constructor
  · intro rmatch in_file filters key value h hnone
    exact match_filters_loop_unknown_key rmatch _ filters key value h hnone
  · intro entities overrides key value h hnone
    exact build_path_render_unknown_key overrides entities key value h hnone

/-- Witness for C8 at a concrete unknown key. -/
theorem claim_c8_witness :
    (∃ msg, Bids.match_filters (fun _ _ => true) "/data/sub-01_ses-01_T1w.nii.gz"
      [("notakey", "x")] = .error (.valueError msg)) ∧
    (∃ msg, Bids.build_path_render [("desc", "preproc")] [("notakey", "x")]
      = .error (.valueError msg)) :=
  ⟨claim_c8_unknown_entity.1 (fun _ _ => true) "/data/sub-01_ses-01_T1w.nii.gz"
      [("notakey", "x")] "notakey" "x" (by decide) (by decide),
   claim_c8_unknown_entity.2 [("desc", "preproc")] [("notakey", "x")]
      "notakey" "x" (by decide) (by decide)⟩

end FreesurferAnalyses

namespace FreesurferAnalyses.NativeParcellation

open FreesurferAnalyses

/-- Helper: the canonical subcortical stats path assembled by
`build_stats_output_dictionary`. -/
def subStatsPath (src scheme : String) : String :=
  src ++ "/" ++ DEFAULT_SUBCORTICAL_STATS_DESTINATION ++ "/"
    ++ DEFAULT_SUBCORTICAL_STATS_PATTERN scheme

/-- Helper: the canonical subcortical table path assembled by
`build_table_output_dictionary`. -/
def subTablePath (src scheme measure : String) : String :=
  src ++ "/" ++ DEFAULT_SUBCORTICAL_TABLES_DESTINATION ++ "/"
    ++ DEFAULT_SUBCORTICAL_TABLES_PATTERN scheme measure

lemma build_stats_subcortical (src scheme hemi : String) (fs : List String)
    (hh1 : hemi ∉ HEMISPHERES_LABELS) (hh2 : pyLower hemi = "subcortex") :
    build_stats_output_dictionary src scheme hemi fs
      = .ok ⟨subStatsPath src scheme, fs.contains (subStatsPath src scheme)⟩ := by
  simp [build_stats_output_dictionary, subStatsPath, hh1, hh2]

lemma validate_measure_subcortical_ok (hemi measure : String)
    (hh1 : hemi ∉ HEMISPHERES_LABELS) (hm : measure ∈ SUBCORTICAL_MEASURES) :
    validate_measure hemi measure = .ok () := by
  unfold validate_measure
  simp [hh1, hm]

lemma build_table_subcortical (src scheme hemi measure : String) (fs : List String)
    (hh1 : hemi ∉ HEMISPHERES_LABELS) (hh2 : pyLower hemi = "subcortex")
    (hm : measure ∈ SUBCORTICAL_MEASURES) :
    build_table_output_dictionary src scheme hemi measure fs
      = .ok ⟨subTablePath src scheme measure,
             fs.contains (subTablePath src scheme measure)⟩ := by
  unfold build_table_output_dictionary
  rw [validate_measure_subcortical_ok hemi measure hh1 hm]
  simp [subTablePath, hh1, hh2]

lemma parcellate_subcortical_skip (parcs : Parcs) (src scheme hemi : String) (s : PState)
    (hh1 : hemi ∉ HEMISPHERES_LABELS) (hh2 : pyLower hemi = "subcortex")
    (hex : s.fs.contains (subStatsPath src scheme) = true) :
    parcellate_single_hemisphere parcs src scheme hemi false s
      = (.ok ⟨subStatsPath src scheme, true⟩, s) := by
  unfold parcellate_single_hemisphere
  rw [build_stats_subcortical src scheme hemi s.fs hh1 hh2]
  have hmem : subStatsPath src scheme ∈ s.fs := by simpa using hex
  simp [hmem]

lemma parcellate_subcortical_spawn (parcs : Parcs) (src scheme hemi gca : String)
    (force : Bool) (s : PState)
    (hh1 : hemi ∉ HEMISPHERES_LABELS) (hh2 : pyLower hemi = "subcortex")
    (hgca : validate_parcellation parcs scheme "gcs_subcortex" = .ok gca)
    (hrun : s.fs.contains (subStatsPath src scheme) = false ∨ force = true) :
    parcellate_single_hemisphere parcs src scheme hemi force s
      = (.ok ⟨subStatsPath src scheme, s.fs.contains (subStatsPath src scheme)⟩,
         executeStage (set_subjects_dir s (pathParent src)) .statistics
           (PARCELLATION_SUBCORTICAL_STATISTICS_CMD (pathParent src) (pathName src)
             scheme gca)
           (subStatsPath src scheme)) := by
  unfold parcellate_single_hemisphere
  rw [build_stats_subcortical src scheme hemi s.fs hh1 hh2]
  rcases hrun with hr | hr
  · have hmem : subStatsPath src scheme ∉ s.fs := by simpa using hr
    simp [hr, hmem, hh1, hh2, configure_subcortex_parcellation_command, hgca]
  · subst hr
    simp [hh1, hh2, configure_subcortex_parcellation_command, hgca]

lemma parcellate_subcortical_ok_mem (parcs : Parcs) (src scheme hemi : String)
    (force : Bool) (s : PState) (out : OutputDict) (s' : PState)
    (hh1 : hemi ∉ HEMISPHERES_LABELS) (hh2 : pyLower hemi = "subcortex")
    (h : parcellate_single_hemisphere parcs src scheme hemi force s = (.ok out, s')) :
    s'.fs.contains (subStatsPath src scheme) = true := by
  unfold parcellate_single_hemisphere at h
  rw [build_stats_subcortical src scheme hemi s.fs hh1 hh2] at h
  by_cases hex : s.fs.contains (subStatsPath src scheme) = true
  · rw [hex] at h
    cases force with
    | false =>
      simp at h
      rw [← h.2, hex]
    | true =>
      simp [hh1, hh2] at h
      rcases hconf : configure_subcortex_parcellation_command parcs src scheme with e | cmd <;>
        rw [hconf] at h <;> simp at h
      rw [← h.2]
      simp [executeStage, subStatsPath]
  · rw [Bool.not_eq_true] at hex
    rw [hex] at h
    simp [hh1, hh2] at h
    rcases hconf : configure_subcortex_parcellation_command parcs src scheme with e | cmd <;>
      rw [hconf] at h <;> simp at h
    rw [← h.2]
    simp [executeStage, subStatsPath]

lemma run_single_subcortical_skip (parcs : Parcs) (src scheme hemi measure : String)
    (s : PState) (hh1 : hemi ∉ HEMISPHERES_LABELS) (hh2 : pyLower hemi = "subcortex")
    (hm : measure ∈ SUBCORTICAL_MEASURES)
    (hstats : s.fs.contains (subStatsPath src scheme) = true)
    (htable : s.fs.contains (subTablePath src scheme measure) = true) :
    run_single_hemisphere parcs src scheme hemi measure false s
      = (.ok ⟨subTablePath src scheme measure, true⟩, s) := by
  unfold run_single_hemisphere
  rw [parcellate_subcortical_skip parcs src scheme hemi s hh1 hh2 hstats]
  simp only []
  rw [build_table_subcortical src scheme hemi measure s.fs hh1 hh2 hm]
  have hmem : subTablePath src scheme measure ∈ s.fs := by simpa using htable
  simp [hmem]

lemma run_single_subcortical_force (parcs : Parcs) (src scheme hemi measure gca : String)
    (s : PState) (hh1 : hemi ∉ HEMISPHERES_LABELS) (hh2 : pyLower hemi = "subcortex")
    (hm : measure ∈ SUBCORTICAL_MEASURES)
    (hgca : validate_parcellation parcs scheme "gcs_subcortex" = .ok gca) :
    run_single_hemisphere parcs src scheme hemi measure true s
      = (let s1 := executeStage (set_subjects_dir s (pathParent src)) .statistics
           (PARCELLATION_SUBCORTICAL_STATISTICS_CMD (pathParent src) (pathName src)
             scheme gca)
           (subStatsPath src scheme)
         (.ok ⟨subTablePath src scheme measure,
               s1.fs.contains (subTablePath src scheme measure)⟩,
          executeStage (set_subjects_dir s1 (pathParent src)) .tableExport
            (configure_subcortical_transformation_command src scheme measure
              (subStatsPath src scheme))
            (subTablePath src scheme measure))) := by
  unfold run_single_hemisphere
  rw [parcellate_subcortical_spawn parcs src scheme hemi gca true s hh1 hh2 hgca (Or.inr rfl)]
  simp only []
  rw [build_table_subcortical src scheme hemi measure _ hh1 hh2 hm]
  simp [hh1, hh2]

end FreesurferAnalyses.NativeParcellation

namespace FreesurferAnalyses.NativeRegistration

open FreesurferAnalyses

/-- Helper: the canonical cortical labeling path assembled by
`build_output_dictionary`. -/
def cortLabelPath (src scheme hemi : String) : String :=
  src ++ "/" ++ DEFAULT_CORTICAL_OUTPUT_DESTINATION ++ "/"
    ++ DEFAULT_CORTICAL_OUTPUT_PATTERN hemi scheme

lemma reg_build_cortical (src scheme hemi : String) (fs : List String)
    (hh : hemi ∈ HEMISPHERES_LABELS) :
    build_output_dictionary src scheme hemi fs
      = .ok ⟨cortLabelPath src scheme hemi, fs.contains (cortLabelPath src scheme hemi)⟩ := by
  simp [build_output_dictionary, cortLabelPath, hh]

lemma reg_run_cortical_skip (parcs : Parcs) (src scheme hemi : String) (s : PState)
    (hh : hemi ∈ HEMISPHERES_LABELS)
    (hex : s.fs.contains (cortLabelPath src scheme hemi) = true) :
    run_single_hemisphere parcs src scheme hemi false s
      = (.ok ⟨cortLabelPath src scheme hemi, true⟩, s) := by
  unfold run_single_hemisphere
  rw [reg_build_cortical src scheme hemi s.fs hh]
  have hmem : cortLabelPath src scheme hemi ∈ s.fs := by simpa using hex
  simp [hmem]

lemma reg_run_cortical_spawn (parcs : Parcs) (src scheme hemi cmd : String)
    (force : Bool) (s : PState) (hh : hemi ∈ HEMISPHERES_LABELS)
    (hcmd : configure_cortex_mapping_command parcs src scheme hemi = .ok cmd)
    (hrun : s.fs.contains (cortLabelPath src scheme hemi) = false ∨ force = true) :
    run_single_hemisphere parcs src scheme hemi force s
      = (.ok ⟨cortLabelPath src scheme hemi, s.fs.contains (cortLabelPath src scheme hemi)⟩,
         executeStage s .labeling cmd (cortLabelPath src scheme hemi)) := by
  unfold run_single_hemisphere
  rw [reg_build_cortical src scheme hemi s.fs hh]
  rcases hrun with hr | hr
  · have hmem : cortLabelPath src scheme hemi ∉ s.fs := by simpa using hr
    simp [hr, hmem, hh, hcmd]
  · subst hr
    simp [hh, hcmd]

end FreesurferAnalyses.NativeRegistration

namespace FreesurferAnalyses

/-- C4: with `force=true` the stage command is rendered and spawned even when
the canonical output already exists, for every unit kind: the cortical and
subcortical statistics stages append exactly their commands to the trace, the
cortical and subcortical table stages additionally append the export command,
the labeling stage appends the mapping command, and the (re-created) artifact
is present afterwards. -/
theorem claim_c4_force_semantics (parcs : Parcs)
    (src scheme hemi hsub measure measureS lut gca labelCmd : String)
    (s : PState) (hh : hemi ∈ HEMISPHERES_LABELS)
    (hm : measure ∈ NativeParcellation.CORTICAL_MEASURES)
    (hlut : validate_parcellation parcs scheme "ctab" = .ok lut)
    (hsub1 : hsub ∉ HEMISPHERES_LABELS) (hsub2 : pyLower hsub = "subcortex")
    (hmS : measureS ∈ NativeParcellation.SUBCORTICAL_MEASURES)
    (hgca : validate_parcellation parcs scheme "gcs_subcortex" = .ok gca)
    (hcmd : NativeRegistration.configure_cortex_mapping_command parcs src scheme hemi
      = .ok labelCmd)
    (_hstats : s.fs.contains (NativeParcellation.cortStatsPath src scheme hemi) = true)
    (_htable : s.fs.contains (NativeParcellation.cortTablePath src scheme hemi measure) = true) :
    (NativeParcellation.parcellate_single_hemisphere parcs src scheme hemi true s).2.trace
      = s.trace ++ [⟨.statistics,
          NativeParcellation.PARCELLATION_CORTICAL_STATISTICS_CMD
            (pathParent src) (pathName src) hemi scheme lut⟩] ∧
    (NativeParcellation.run_single_hemisphere parcs src scheme hemi measure true s).2.trace
      = s.trace ++ [⟨.statistics,
          NativeParcellation.PARCELLATION_CORTICAL_STATISTICS_CMD
            (pathParent src) (pathName src) hemi scheme lut⟩,
          ⟨.tableExport,
          NativeParcellation.CORTICAL_STATS_TO_TABLE_CMD
            (pathParent src) (pathName src) hemi scheme measure⟩] ∧
    (NativeParcellation.parcellate_single_hemisphere parcs src scheme hemi true s).2.fs.contains
        (NativeParcellation.cortStatsPath src scheme hemi) = true ∧
    (NativeParcellation.parcellate_single_hemisphere parcs src scheme hsub true s).2.trace
      = s.trace ++ [⟨.statistics,
          NativeParcellation.PARCELLATION_SUBCORTICAL_STATISTICS_CMD
            (pathParent src) (pathName src) scheme gca⟩] ∧
    (NativeParcellation.run_single_hemisphere parcs src scheme hsub measureS true s).2.trace
      = s.trace ++ [⟨.statistics,
          NativeParcellation.PARCELLATION_SUBCORTICAL_STATISTICS_CMD
            (pathParent src) (pathName src) scheme gca⟩,
          ⟨.tableExport,
          NativeParcellation.configure_subcortical_transformation_command
            src scheme measureS (NativeParcellation.subStatsPath src scheme)⟩] ∧
    (NativeRegistration.run_single_hemisphere parcs src scheme hemi true s).2.trace
      = s.trace ++ [⟨.labeling, labelCmd⟩] := by
  refine ⟨?_, ?_, ?_, ?_, ?_, ?_⟩
  · rw [NativeParcellation.parcellate_cortical_spawn parcs src scheme hemi lut true s hh hlut
      (Or.inr rfl)]
    simp [executeStage, set_subjects_dir]
  · rw [NativeParcellation.run_single_cortical_force parcs src scheme hemi measure lut s hh hm hlut]
    simp [executeStage, set_subjects_dir,
      NativeParcellation.configure_cortex_transformation_command]
  · rw [NativeParcellation.parcellate_cortical_spawn parcs src scheme hemi lut true s hh hlut
      (Or.inr rfl)]
    simp [executeStage]
  · rw [NativeParcellation.parcellate_subcortical_spawn parcs src scheme hsub gca true s
      hsub1 hsub2 hgca (Or.inr rfl)]
    simp [executeStage, set_subjects_dir]
  · rw [NativeParcellation.run_single_subcortical_force parcs src scheme hsub measureS gca s
      hsub1 hsub2 hmS hgca]
    simp [executeStage, set_subjects_dir]
  · rw [NativeRegistration.reg_run_cortical_spawn parcs src scheme hemi labelCmd true s hh hcmd
      (Or.inr rfl)]
    simp [executeStage]

/-- Concrete state in which every canonical output of `sub-01` for
`schemeX` already exists. -/
def demoFullState : PState :=
  ⟨["/data/sub-01/stats/lh.schemeX.stats",
    "/data/sub-01/stats/lh_volume.schemeX.csv",
    "/data/sub-01/stats/schemeX_subcortex.stats",
    "/data/sub-01/stats/schemeX_subcortex_mean.csv",
    "/data/sub-01/label/lh.schemeX.annot"], none, []⟩

/-- The labeling command rendered by `configure_cortex_mapping_command` for
the demo inputs. -/
def demoLabelCmd : String :=
  NativeRegistration.CORTEX_MAPPING_CMD (pathParent "/data/sub-01")
    (pathName "/data/sub-01") "lh" ("/luts/schemeX.gcs".replace "\x7bhemi\x7d" "lh")
    "schemeX"

/-- Witness for C4 at concrete inputs whose outputs all already exist. -/
theorem claim_c4_witness :
    (NativeParcellation.parcellate_single_hemisphere demoParcs "/data/sub-01"
        "schemeX" "lh" true demoFullState).2.trace
      = demoFullState.trace ++ [⟨.statistics,
          NativeParcellation.PARCELLATION_CORTICAL_STATISTICS_CMD
            (pathParent "/data/sub-01") (pathName "/data/sub-01") "lh" "schemeX"
            "/luts/schemeX.ctab"⟩] ∧
    (NativeParcellation.run_single_hemisphere demoParcs "/data/sub-01"
        "schemeX" "lh" "volume" true demoFullState).2.trace
      = demoFullState.trace ++ [⟨.statistics,
          NativeParcellation.PARCELLATION_CORTICAL_STATISTICS_CMD
            (pathParent "/data/sub-01") (pathName "/data/sub-01") "lh" "schemeX"
            "/luts/schemeX.ctab"⟩,
          ⟨.tableExport,
          NativeParcellation.CORTICAL_STATS_TO_TABLE_CMD
            (pathParent "/data/sub-01") (pathName "/data/sub-01") "lh" "schemeX"
            "volume"⟩] ∧
    (NativeParcellation.parcellate_single_hemisphere demoParcs "/data/sub-01"
        "schemeX" "lh" true demoFullState).2.fs.contains
      (NativeParcellation.cortStatsPath "/data/sub-01" "schemeX" "lh") = true ∧
    (NativeParcellation.parcellate_single_hemisphere demoParcs "/data/sub-01"
        "schemeX" "subcortex" true demoFullState).2.trace
      = demoFullState.trace ++ [⟨.statistics,
          NativeParcellation.PARCELLATION_SUBCORTICAL_STATISTICS_CMD
            (pathParent "/data/sub-01") (pathName "/data/sub-01") "schemeX"
            "/luts/schemeX.gca"⟩] ∧
    (NativeParcellation.run_single_hemisphere demoParcs "/data/sub-01"
        "schemeX" "subcortex" "mean" true demoFullState).2.trace
      = demoFullState.trace ++ [⟨.statistics,
          NativeParcellation.PARCELLATION_SUBCORTICAL_STATISTICS_CMD
            (pathParent "/data/sub-01") (pathName "/data/sub-01") "schemeX"
            "/luts/schemeX.gca"⟩,
          ⟨.tableExport,
          NativeParcellation.configure_subcortical_transformation_command
            "/data/sub-01" "schemeX" "mean"
            (NativeParcellation.subStatsPath "/data/sub-01" "schemeX")⟩] ∧
    (NativeRegistration.run_single_hemisphere demoParcs "/data/sub-01"
        "schemeX" "lh" true demoFullState).2.trace
      = demoFullState.trace ++ [⟨.labeling, demoLabelCmd⟩] :=
  claim_c4_force_semantics demoParcs "/data/sub-01" "schemeX" "lh" "subcortex"
    "volume" "mean" "/luts/schemeX.ctab" "/luts/schemeX.gca" demoLabelCmd
    demoFullState (by decide) (by decide) (by decide) (by decide) (by decide)
    (by decide) (by decide) rfl (by decide) (by decide)

end FreesurferAnalyses

namespace FreesurferAnalyses



end FreesurferAnalyses

namespace FreesurferAnalyses.NativeParcellation

open FreesurferAnalyses

lemma parcellate_preserves_contains (parcs : Parcs) (src scheme hemi : String)
    (force : Bool) (s : PState) (p : String) (hp : s.fs.contains p = true) :
    ((parcellate_single_hemisphere parcs src scheme hemi force s).2).fs.contains p
      = true := by
  have hmem : p ∈ s.fs := by simpa using hp
  unfold parcellate_single_hemisphere
  split <;> (try split) <;> (try split) <;> (try split) <;> (try split) <;>
    simp [executeStage, set_subjects_dir, hmem]

lemma run_single_cortical_ok_mem (parcs : Parcs) (src scheme hemi measure : String)
    (s : PState) (out : OutputDict) (s' : PState)
    (hh : hemi ∈ HEMISPHERES_LABELS) (hm : measure ∈ CORTICAL_MEASURES)
    (h : run_single_hemisphere parcs src scheme hemi measure false s = (.ok out, s')) :
    s'.fs.contains (cortStatsPath src scheme hemi) = true ∧
    s'.fs.contains (cortTablePath src scheme hemi measure) = true := by
  unfold run_single_hemisphere at h
  rcases hparc : parcellate_single_hemisphere parcs src scheme hemi false s with ⟨r, s1⟩
  rw [hparc] at h
  cases r with
  | error e => simp at h
  | ok pout =>
    have hstats1 : s1.fs.contains (cortStatsPath src scheme hemi) = true :=
      parcellate_cortical_ok_mem parcs src scheme hemi false s pout s1 hh hparc
    have hmem1 : cortStatsPath src scheme hemi ∈ s1.fs := by simpa using hstats1
    dsimp only at h
    rw [build_table_cortical src scheme hemi measure s1.fs hh hm] at h
    by_cases htab : s1.fs.contains (cortTablePath src scheme hemi measure) = true
    · rw [htab] at h
      simp at h
      rw [← h.2]
      exact ⟨hstats1, htab⟩
    · rw [Bool.not_eq_true] at htab
      rw [htab] at h
      simp [hh] at h
      rw [← h.2]
      constructor
      · simp [executeStage, set_subjects_dir, hmem1]
      · simp [executeStage]

lemma run_single_subcortical_ok_mem (parcs : Parcs) (src scheme hemi measure : String)
    (s : PState) (out : OutputDict) (s' : PState)
    (hh1 : hemi ∉ HEMISPHERES_LABELS) (hh2 : pyLower hemi = "subcortex")
    (hm : measure ∈ SUBCORTICAL_MEASURES)
    (h : run_single_hemisphere parcs src scheme hemi measure false s = (.ok out, s')) :
    s'.fs.contains (subStatsPath src scheme) = true ∧
    s'.fs.contains (subTablePath src scheme measure) = true := by
  unfold run_single_hemisphere at h
  rcases hparc : parcellate_single_hemisphere parcs src scheme hemi false s with ⟨r, s1⟩
  rw [hparc] at h
  cases r with
  | error e => simp at h
  | ok pout =>
    have hstats1 : s1.fs.contains (subStatsPath src scheme) = true :=
      parcellate_subcortical_ok_mem parcs src scheme hemi false s pout s1 hh1 hh2 hparc
    have hmem1 : subStatsPath src scheme ∈ s1.fs := by simpa using hstats1
    dsimp only at h
    rw [build_table_subcortical src scheme hemi measure s1.fs hh1 hh2 hm] at h
    by_cases htab : s1.fs.contains (subTablePath src scheme measure) = true
    · rw [htab] at h
      simp at h
      rw [← h.2]
      exact ⟨hstats1, htab⟩
    · rw [Bool.not_eq_true] at htab
      rw [htab] at h
      simp [hh1, hh2] at h
      rw [← h.2]
      constructor
      · simp [executeStage, set_subjects_dir, hmem1]
      · simp [executeStage]

end FreesurferAnalyses.NativeParcellation

namespace FreesurferAnalyses.NativeRegistration

open FreesurferAnalyses

lemma reg_run_cortical_ok_mem (parcs : Parcs) (src scheme hemi : String)
    (s : PState) (out : OutputDict) (s' : PState)
    (hh : hemi ∈ HEMISPHERES_LABELS)
    (h : run_single_hemisphere parcs src scheme hemi false s = (.ok out, s')) :
    s'.fs.contains (cortLabelPath src scheme hemi) = true := by
  unfold run_single_hemisphere at h
  rw [reg_build_cortical src scheme hemi s.fs hh] at h
  by_cases hex : s.fs.contains (cortLabelPath src scheme hemi) = true
  · rw [hex] at h
    simp at h
    rw [← h.2, hex]
  · rw [Bool.not_eq_true] at hex
    rw [hex] at h
    simp [hh] at h
    rcases hconf : configure_cortex_mapping_command parcs src scheme hemi with e | cmd <;>
      rw [hconf] at h <;> simp at h
    rw [← h.2]
    simp [executeStage, cortLabelPath]

end FreesurferAnalyses.NativeRegistration

namespace FreesurferAnalyses

/-- C6 (amended): scheme-key validation errors are raised before any external
process is spawned — a missing `ctab`/`gcs_subcortex`/`gcs` entry makes the
call raise with the spawn trace unchanged, for the statistics, table and
labeling units alike (unknown-entity validation lives in the pure
path/filter helpers, which perform no spawns at all) — but measure
validation is raised only before the unit's own table-export command, not
before the upstream statistics stage: when the upstream stage of
`run_single_hemisphere` completes and the measure is invalid for the unit's
region group, the call raises the measure `ValueError` with the final state
exactly the upstream stage's state, so the export command is never rendered
or spawned, though the upstream statistics subprocess may already have
run. -/
theorem claim_c6_validation_before_own_stage (parcs : Parcs)
    (src scheme measure : String) (s : PState) (out : OutputDict) (s₁ : PState) :
    (∀ hemi, hemi ∈ HEMISPHERES_LABELS →
      measure ∉ NativeParcellation.CORTICAL_MEASURES →
      NativeParcellation.parcellate_single_hemisphere parcs src scheme hemi false s
        = (.ok out, s₁) →
      NativeParcellation.run_single_hemisphere parcs src scheme hemi measure false s
        = (.error (.valueError ("Cannot run cortical statistics on " ++ measure)), s₁)) ∧
    (measure ∉ NativeParcellation.SUBCORTICAL_MEASURES →
      NativeParcellation.parcellate_single_hemisphere parcs src scheme "subcortex" false s
        = (.ok out, s₁) →
      NativeParcellation.run_single_hemisphere parcs src scheme "subcortex" measure false s
        = (.error (.valueError ("Cannot run subcortical statistics on " ++ measure)), s₁)) ∧
    (∀ hemi e, hemi ∈ HEMISPHERES_LABELS →
      s.fs.contains (NativeParcellation.cortStatsPath src scheme hemi) = false →
      validate_parcellation parcs scheme "ctab" = .error e →
      NativeParcellation.parcellate_single_hemisphere parcs src scheme hemi false s
        = (.error e, set_subjects_dir s (pathParent src)) ∧
      NativeParcellation.run_single_hemisphere parcs src scheme hemi measure false s
        = (.error e, set_subjects_dir s (pathParent src)) ∧
      (NativeParcellation.run_single_hemisphere parcs src scheme hemi measure false s).2.trace
        = s.trace) ∧
    (∀ hemi e, hemi ∉ HEMISPHERES_LABELS → pyLower hemi = "subcortex" →
      s.fs.contains (NativeParcellation.subStatsPath src scheme) = false →
      validate_parcellation parcs scheme "gcs_subcortex" = .error e →
      NativeParcellation.parcellate_single_hemisphere parcs src scheme hemi false s
        = (.error e, set_subjects_dir s (pathParent src)) ∧
      NativeParcellation.run_single_hemisphere parcs src scheme hemi measure false s
        = (.error e, set_subjects_dir s (pathParent src)) ∧
      (NativeParcellation.run_single_hemisphere parcs src scheme hemi measure false s).2.trace
        = s.trace) ∧
    (∀ hemi e, hemi ∈ HEMISPHERES_LABELS →
      s.fs.contains (NativeRegistration.cortLabelPath src scheme hemi) = false →
      NativeRegistration.configure_cortex_mapping_command parcs src scheme hemi = .error e →
      NativeRegistration.run_single_hemisphere parcs src scheme hemi false s = (.error e, s) ∧
      (NativeRegistration.run_single_hemisphere parcs src scheme hemi false s).2.trace
        = s.trace) := by
  refine ⟨?_, ?_, ?_, ?_, ?_⟩
  · intro hemi hh hm hparc
    unfold NativeParcellation.run_single_hemisphere
    rw [hparc]
    dsimp only
    have hval : NativeParcellation.validate_measure hemi measure
        = .error (.valueError ("Cannot run cortical statistics on " ++ measure)) := by
      unfold NativeParcellation.validate_measure
      rw [if_pos ⟨hh, hm⟩]
    unfold NativeParcellation.build_table_output_dictionary
    rw [hval]
  · intro hm hparc
    unfold NativeParcellation.run_single_hemisphere
    rw [hparc]
    dsimp only
    have hval : NativeParcellation.validate_measure "subcortex" measure
        = .error (.valueError ("Cannot run subcortical statistics on " ++ measure)) := by
      unfold NativeParcellation.validate_measure
      rw [if_neg (fun h => absurd h.1 (by decide)), if_pos ⟨by decide, hm⟩]
    unfold NativeParcellation.build_table_output_dictionary
    rw [hval]
  · intro hemi e hh hex hctab
    have hparc : NativeParcellation.parcellate_single_hemisphere parcs src scheme hemi false s
        = (.error e, set_subjects_dir s (pathParent src)) := by
      unfold NativeParcellation.parcellate_single_hemisphere
      rw [NativeParcellation.build_stats_cortical src scheme hemi s.fs hh]
      have hnot : NativeParcellation.cortStatsPath src scheme hemi ∉ s.fs := by
        simpa using hex
      simp [hex, hnot, hh, NativeParcellation.configure_cortex_parcellation_command, hctab]
    have hrun : NativeParcellation.run_single_hemisphere parcs src scheme hemi measure false s
        = (.error e, set_subjects_dir s (pathParent src)) := by
      unfold NativeParcellation.run_single_hemisphere
      rw [hparc]
    exact ⟨hparc, hrun, by rw [hrun]; rfl⟩
  · intro hemi e hh1 hh2 hex hgca
    have hparc : NativeParcellation.parcellate_single_hemisphere parcs src scheme hemi false s
        = (.error e, set_subjects_dir s (pathParent src)) := by
      unfold NativeParcellation.parcellate_single_hemisphere
      rw [NativeParcellation.build_stats_subcortical src scheme hemi s.fs hh1 hh2]
      have hnot : NativeParcellation.subStatsPath src scheme ∉ s.fs := by
        simpa using hex
      simp [hex, hnot, hh1, hh2,
        NativeParcellation.configure_subcortex_parcellation_command, hgca]
    have hrun : NativeParcellation.run_single_hemisphere parcs src scheme hemi measure false s
        = (.error e, set_subjects_dir s (pathParent src)) := by
      unfold NativeParcellation.run_single_hemisphere
      rw [hparc]
    exact ⟨hparc, hrun, by rw [hrun]; rfl⟩
  · intro hemi e hh hex hcmd
    have hrun : NativeRegistration.run_single_hemisphere parcs src scheme hemi false s
        = (.error e, s) := by
      unfold NativeRegistration.run_single_hemisphere
      rw [NativeRegistration.reg_build_cortical src scheme hemi s.fs hh]
      have hnot : NativeRegistration.cortLabelPath src scheme hemi ∉ s.fs := by
        simpa using hex
      simp [hex, hnot, hh, hcmd]
    exact ⟨hrun, by rw [hrun]⟩

/-- Parcellation registry whose only scheme has no resource keys, used to
exercise the missing-scheme-definition branches. -/
def demoParcsEmpty : Parcs := [("schemeY", [])]

/-- Witness for the amended C6 at concrete inputs: both invalid-measure
region groups, and missing scheme keys for the statistics, table and
labeling stages. -/
theorem claim_c6_witness :
    (NativeParcellation.run_single_hemisphere demoParcs "/data/sub-01" "schemeX"
        "lh" "notameasure" false demoState
      = (.error (.valueError "Cannot run cortical statistics on notameasure"),
         demoState)) ∧
    (NativeParcellation.run_single_hemisphere demoParcs "/data/sub-01" "schemeX"
        "subcortex" "thickness" false
        ⟨["/data/sub-01/stats/schemeX_subcortex.stats"], none, []⟩
      = (.error (.valueError "Cannot run subcortical statistics on thickness"),
         ⟨["/data/sub-01/stats/schemeX_subcortex.stats"], none, []⟩)) ∧
    (NativeParcellation.run_single_hemisphere demoParcsEmpty "/data/sub-01" "schemeY"
        "lh" "volume" false ⟨[], none, []⟩
      = (.error (.valueError "No available ctab was found for schemeY."),
         set_subjects_dir ⟨[], none, []⟩ (pathParent "/data/sub-01"))) ∧
    ((NativeParcellation.run_single_hemisphere demoParcsEmpty "/data/sub-01" "schemeY"
        "lh" "volume" false ⟨[], none, []⟩).2.trace = []) ∧
    (NativeParcellation.run_single_hemisphere demoParcsEmpty "/data/sub-01" "schemeY"
        "subcortex" "mean" false ⟨[], none, []⟩
      = (.error (.valueError "No available gcs_subcortex was found for schemeY."),
         set_subjects_dir ⟨[], none, []⟩ (pathParent "/data/sub-01"))) ∧
    (NativeRegistration.run_single_hemisphere demoParcsEmpty "/data/sub-01" "schemeY"
        "lh" false ⟨[], none, []⟩
      = (.error (.valueError "No schemeY parcellation scheme found for lh hemisphere."),
         ⟨[], none, []⟩)) := by
  obtain ⟨m1, m2, -, -, -⟩ := claim_c6_validation_before_own_stage demoParcs
    "/data/sub-01" "schemeX" "notameasure" demoState
    ⟨NativeParcellation.cortStatsPath "/data/sub-01" "schemeX" "lh", true⟩ demoState
  obtain ⟨n1, n2, -, -, -⟩ := claim_c6_validation_before_own_stage demoParcs
    "/data/sub-01" "schemeX" "thickness"
    ⟨["/data/sub-01/stats/schemeX_subcortex.stats"], none, []⟩
    ⟨"/data/sub-01/stats/schemeX_subcortex.stats", true⟩
    ⟨["/data/sub-01/stats/schemeX_subcortex.stats"], none, []⟩
  obtain ⟨-, -, k3, k4, k5⟩ := claim_c6_validation_before_own_stage demoParcsEmpty
    "/data/sub-01" "schemeY" "volume" ⟨[], none, []⟩ ⟨"", false⟩ ⟨[], none, []⟩
  obtain ⟨-, -, -, k4m, -⟩ := claim_c6_validation_before_own_stage demoParcsEmpty
    "/data/sub-01" "schemeY" "mean" ⟨[], none, []⟩ ⟨"", false⟩ ⟨[], none, []⟩
  obtain ⟨h3a, h3b, h3c⟩ := k3 "lh"
    (.valueError "No available ctab was found for schemeY.") (by decide) (by decide)
    (by decide)
  obtain ⟨h4a, h4b, -⟩ := k4m "subcortex"
    (.valueError "No available gcs_subcortex was found for schemeY.") (by decide)
    (by decide) (by decide) (by decide)
  obtain ⟨h5a, -⟩ := k5 "lh"
    (.valueError "No schemeY parcellation scheme found for lh hemisphere.") (by decide)
    (by decide) (by decide)
  exact ⟨m1 "lh" (by decide) (by decide) (by decide), n2 (by decide) (by decide),
    h3b, h3c, h4b, h5a⟩

end FreesurferAnalyses

namespace FreesurferAnalyses

/-- C1 (amended): for every unit kind, if the unit's own canonical output
exists and `force=false`, the unit's own stage command is never spawned: the
statistics stages and the labeling stage spawn nothing and leave the state
wholly unchanged, and a table stage's call leaves the spawn trace exactly the
upstream statistics stage's trace (identical to the full-skip state when the
upstream output also exists). Moreover, running the same unit twice with
`force=false` executes each external tool at most once, for statistics,
table-export and labeling units alike: a successful first run leaves the
artifacts on the filesystem, so the second run returns without spawning or
changing state. -/
theorem claim_c1_cache_skip (parcs : Parcs)
    (src scheme hemi hsub measure measureS : String)
    (s : PState) (hh : hemi ∈ HEMISPHERES_LABELS)
    (hm : measure ∈ NativeParcellation.CORTICAL_MEASURES)
    (hsub1 : hsub ∉ HEMISPHERES_LABELS) (hsub2 : pyLower hsub = "subcortex")
    (hmS : measureS ∈ NativeParcellation.SUBCORTICAL_MEASURES) :
    (s.fs.contains (NativeParcellation.cortStatsPath src scheme hemi) = true →
      NativeParcellation.parcellate_single_hemisphere parcs src scheme hemi false s
        = (.ok ⟨NativeParcellation.cortStatsPath src scheme hemi, true⟩, s)) ∧
    (s.fs.contains (NativeParcellation.cortTablePath src scheme hemi measure) = true →
      (NativeParcellation.run_single_hemisphere parcs src scheme hemi measure false s).2.trace
        = (NativeParcellation.parcellate_single_hemisphere parcs src scheme hemi false s).2.trace) ∧
    (s.fs.contains (NativeParcellation.cortStatsPath src scheme hemi) = true →
     s.fs.contains (NativeParcellation.cortTablePath src scheme hemi measure) = true →
      NativeParcellation.run_single_hemisphere parcs src scheme hemi measure false s
        = (.ok ⟨NativeParcellation.cortTablePath src scheme hemi measure, true⟩, s)) ∧
    (∀ out s', NativeParcellation.parcellate_single_hemisphere parcs src scheme hemi false s
        = (.ok out, s') →
      NativeParcellation.parcellate_single_hemisphere parcs src scheme hemi false s'
        = (.ok ⟨NativeParcellation.cortStatsPath src scheme hemi, true⟩, s')) ∧
    (∀ out s', NativeParcellation.run_single_hemisphere parcs src scheme hemi measure false s
        = (.ok out, s') →
      NativeParcellation.run_single_hemisphere parcs src scheme hemi measure false s'
        = (.ok ⟨NativeParcellation.cortTablePath src scheme hemi measure, true⟩, s')) ∧
    (s.fs.contains (NativeParcellation.subStatsPath src scheme) = true →
      NativeParcellation.parcellate_single_hemisphere parcs src scheme hsub false s
        = (.ok ⟨NativeParcellation.subStatsPath src scheme, true⟩, s)) ∧
    (s.fs.contains (NativeParcellation.subTablePath src scheme measureS) = true →
      (NativeParcellation.run_single_hemisphere parcs src scheme hsub measureS false s).2.trace
        = (NativeParcellation.parcellate_single_hemisphere parcs src scheme hsub false s).2.trace) ∧
    (s.fs.contains (NativeParcellation.subStatsPath src scheme) = true →
     s.fs.contains (NativeParcellation.subTablePath src scheme measureS) = true →
      NativeParcellation.run_single_hemisphere parcs src scheme hsub measureS false s
        = (.ok ⟨NativeParcellation.subTablePath src scheme measureS, true⟩, s)) ∧
    (∀ out s', NativeParcellation.parcellate_single_hemisphere parcs src scheme hsub false s
        = (.ok out, s') →
      NativeParcellation.parcellate_single_hemisphere parcs src scheme hsub false s'
        = (.ok ⟨NativeParcellation.subStatsPath src scheme, true⟩, s')) ∧
    (∀ out s', NativeParcellation.run_single_hemisphere parcs src scheme hsub measureS false s
        = (.ok out, s') →
      NativeParcellation.run_single_hemisphere parcs src scheme hsub measureS false s'
        = (.ok ⟨NativeParcellation.subTablePath src scheme measureS, true⟩, s')) ∧
    (s.fs.contains (NativeRegistration.cortLabelPath src scheme hemi) = true →
      NativeRegistration.run_single_hemisphere parcs src scheme hemi false s
        = (.ok ⟨NativeRegistration.cortLabelPath src scheme hemi, true⟩, s)) ∧
    (∀ out s', NativeRegistration.run_single_hemisphere parcs src scheme hemi false s
        = (.ok out, s') →
      NativeRegistration.run_single_hemisphere parcs src scheme hemi false s'
        = (.ok ⟨NativeRegistration.cortLabelPath src scheme hemi, true⟩, s')) := by
  refine ⟨?_, ?_, ?_, ?_, ?_, ?_, ?_, ?_, ?_, ?_, ?_, ?_⟩
  · intro hex
    exact NativeParcellation.parcellate_cortical_skip parcs src scheme hemi s hh hex
  · intro htable
    rcases hparc : NativeParcellation.parcellate_single_hemisphere parcs src scheme hemi
      false s with ⟨r, s1⟩
    unfold NativeParcellation.run_single_hemisphere
    rw [hparc]
    cases r with
    | error e => simp
    | ok pout =>
      have h1 : s1.fs.contains (NativeParcellation.cortTablePath src scheme hemi measure)
          = true := by
        have hpres := NativeParcellation.parcellate_preserves_contains parcs src scheme
          hemi false s (NativeParcellation.cortTablePath src scheme hemi measure) htable
        rw [hparc] at hpres
        exact hpres
      have hmem : NativeParcellation.cortTablePath src scheme hemi measure ∈ s1.fs := by
        simpa using h1
      dsimp only
      rw [NativeParcellation.build_table_cortical src scheme hemi measure s1.fs hh hm]
      simp [hmem]
  · intro hstats htable
    exact NativeParcellation.run_single_cortical_skip parcs src scheme hemi measure s
      hh hm hstats htable
  · intro out s' h
    have hmem := NativeParcellation.parcellate_cortical_ok_mem parcs src scheme hemi
      false s out s' hh h
    exact NativeParcellation.parcellate_cortical_skip parcs src scheme hemi s' hh hmem
  · intro out s' h
    obtain ⟨h1, h2⟩ := NativeParcellation.run_single_cortical_ok_mem parcs src scheme hemi
      measure s out s' hh hm h
    exact NativeParcellation.run_single_cortical_skip parcs src scheme hemi measure s'
      hh hm h1 h2
  · intro hex
    exact NativeParcellation.parcellate_subcortical_skip parcs src scheme hsub s
      hsub1 hsub2 hex
  · intro htable
    rcases hparc : NativeParcellation.parcellate_single_hemisphere parcs src scheme hsub
      false s with ⟨r, s1⟩
    unfold NativeParcellation.run_single_hemisphere
    rw [hparc]
    cases r with
    | error e => simp
    | ok pout =>
      have h1 : s1.fs.contains (NativeParcellation.subTablePath src scheme measureS)
          = true := by
        have hpres := NativeParcellation.parcellate_preserves_contains parcs src scheme
          hsub false s (NativeParcellation.subTablePath src scheme measureS) htable
        rw [hparc] at hpres
        exact hpres
      have hmem : NativeParcellation.subTablePath src scheme measureS ∈ s1.fs := by
        simpa using h1
      dsimp only
      rw [NativeParcellation.build_table_subcortical src scheme hsub measureS s1.fs
        hsub1 hsub2 hmS]
      simp [hmem]
  · intro hstats htable
    exact NativeParcellation.run_single_subcortical_skip parcs src scheme hsub measureS s
      hsub1 hsub2 hmS hstats htable
  · intro out s' h
    have hmem := NativeParcellation.parcellate_subcortical_ok_mem parcs src scheme hsub
      false s out s' hsub1 hsub2 h
    exact NativeParcellation.parcellate_subcortical_skip parcs src scheme hsub s'
      hsub1 hsub2 hmem
  · intro out s' h
    obtain ⟨h1, h2⟩ := NativeParcellation.run_single_subcortical_ok_mem parcs src scheme
      hsub measureS s out s' hsub1 hsub2 hmS h
    exact NativeParcellation.run_single_subcortical_skip parcs src scheme hsub measureS s'
      hsub1 hsub2 hmS h1 h2
  · intro hex
    exact NativeRegistration.reg_run_cortical_skip parcs src scheme hemi s hh hex
  · intro out s' h
    have hmem := NativeRegistration.reg_run_cortical_ok_mem parcs src scheme hemi s
      out s' hh h
    exact NativeRegistration.reg_run_cortical_skip parcs src scheme hemi s' hh hmem

end FreesurferAnalyses

namespace FreesurferAnalyses

/-- Witness for the amended C1 at concrete inputs: skips on an
existing-output state for every unit kind, the no-own-stage-spawn trace
equality for a table unit whose csv exists while the stats file is missing,
and idempotent second runs (statistics, table-export and labeling) after a
first run from the empty state. -/
theorem claim_c1_witness :
    (NativeParcellation.parcellate_single_hemisphere demoParcs "/data/sub-01"
        "schemeX" "lh" false demoFullState
      = (.ok ⟨NativeParcellation.cortStatsPath "/data/sub-01" "schemeX" "lh", true⟩,
         demoFullState)) ∧
    ((NativeParcellation.run_single_hemisphere demoParcs "/data/sub-01"
        "schemeX" "lh" "volume" false c1State).2.trace
      = (NativeParcellation.parcellate_single_hemisphere demoParcs "/data/sub-01"
          "schemeX" "lh" false c1State).2.trace) ∧
    (NativeParcellation.run_single_hemisphere demoParcs "/data/sub-01"
        "schemeX" "lh" "volume" false demoFullState
      = (.ok ⟨NativeParcellation.cortTablePath "/data/sub-01" "schemeX" "lh" "volume", true⟩,
         demoFullState)) ∧
    (NativeParcellation.parcellate_single_hemisphere demoParcs "/data/sub-01"
        "schemeX" "lh" false
        (NativeParcellation.parcellate_single_hemisphere demoParcs "/data/sub-01"
          "schemeX" "lh" false ⟨[], none, []⟩).2
      = (.ok ⟨NativeParcellation.cortStatsPath "/data/sub-01" "schemeX" "lh", true⟩,
         (NativeParcellation.parcellate_single_hemisphere demoParcs "/data/sub-01"
           "schemeX" "lh" false ⟨[], none, []⟩).2)) ∧
    (NativeParcellation.run_single_hemisphere demoParcs "/data/sub-01"
        "schemeX" "lh" "volume" false
        (NativeParcellation.run_single_hemisphere demoParcs "/data/sub-01"
          "schemeX" "lh" "volume" false ⟨[], none, []⟩).2
      = (.ok ⟨NativeParcellation.cortTablePath "/data/sub-01" "schemeX" "lh" "volume", true⟩,
         (NativeParcellation.run_single_hemisphere demoParcs "/data/sub-01"
           "schemeX" "lh" "volume" false ⟨[], none, []⟩).2)) ∧
    (NativeParcellation.parcellate_single_hemisphere demoParcs "/data/sub-01"
        "schemeX" "subcortex" false demoFullState
      = (.ok ⟨NativeParcellation.subStatsPath "/data/sub-01" "schemeX", true⟩,
         demoFullState)) ∧
    (NativeParcellation.run_single_hemisphere demoParcs "/data/sub-01"
        "schemeX" "subcortex" "mean" false demoFullState
      = (.ok ⟨NativeParcellation.subTablePath "/data/sub-01" "schemeX" "mean", true⟩,
         demoFullState)) ∧
    (NativeRegistration.run_single_hemisphere demoParcs "/data/sub-01"
        "schemeX" "lh" false demoFullState
      = (.ok ⟨NativeRegistration.cortLabelPath "/data/sub-01" "schemeX" "lh", true⟩,
         demoFullState)) ∧
    (NativeRegistration.run_single_hemisphere demoParcs "/data/sub-01"
        "schemeX" "lh" false
        (NativeRegistration.run_single_hemisphere demoParcs "/data/sub-01"
          "schemeX" "lh" false ⟨[], none, []⟩).2
      = (.ok ⟨NativeRegistration.cortLabelPath "/data/sub-01" "schemeX" "lh", true⟩,
         (NativeRegistration.run_single_hemisphere demoParcs "/data/sub-01"
           "schemeX" "lh" false ⟨[], none, []⟩).2)) := by
  obtain ⟨f1, -, f3, -, -, f6, -, f8, -, -, f11, -⟩ := claim_c1_cache_skip demoParcs
    "/data/sub-01" "schemeX" "lh" "subcortex" "volume" "mean" demoFullState
    (by decide) (by decide) (by decide) (by decide) (by decide)
  obtain ⟨-, g2, -, -, -, -, -, -, -, -, -, -⟩ := claim_c1_cache_skip demoParcs
    "/data/sub-01" "schemeX" "lh" "subcortex" "volume" "mean" c1State
    (by decide) (by decide) (by decide) (by decide) (by decide)
  obtain ⟨-, -, -, e4, e5, -, -, -, -, -, -, e12⟩ := claim_c1_cache_skip demoParcs
    "/data/sub-01" "schemeX" "lh" "subcortex" "volume" "mean" ⟨[], none, []⟩
    (by decide) (by decide) (by decide) (by decide) (by decide)
  refine ⟨f1 (by decide), g2 (by decide), f3 (by decide) (by decide), ?_, ?_,
    f6 (by decide), f8 (by decide) (by decide), f11 (by decide), ?_⟩
  · exact e4 ⟨NativeParcellation.cortStatsPath "/data/sub-01" "schemeX" "lh", false⟩
      (NativeParcellation.parcellate_single_hemisphere demoParcs "/data/sub-01"
        "schemeX" "lh" false ⟨[], none, []⟩).2 (by decide)
  · exact e5 ⟨NativeParcellation.cortTablePath "/data/sub-01" "schemeX" "lh" "volume", false⟩
      (NativeParcellation.run_single_hemisphere demoParcs "/data/sub-01"
        "schemeX" "lh" "volume" false ⟨[], none, []⟩).2 (by decide)
  · exact e12 ⟨NativeRegistration.cortLabelPath "/data/sub-01" "schemeX" "lh", false⟩
      (NativeRegistration.run_single_hemisphere demoParcs "/data/sub-01"
        "schemeX" "lh" false ⟨[], none, []⟩).2 rfl

end FreesurferAnalyses
